import Mathlib

/-!
# Verification of the Snowflake War Room core against its specification

Shallow embedding of the repository's core components:

* `src/utils/metrics_engine.py` — the Signal Engine (`MetricsEngine`);
* `src/app.py`                  — the structured output parser (`parse_questions`);
* `src/utils/tools.py`          — the tool dispatch registry (`DataTools`);
* `src/utils/agent.py`          — the orchestration loops (`QuestionAgent.run`,
  `DefenseAgent.run`).

Modelling conventions:

* Python strings are embedded as `Str := List Char` (Lean `String` library
  functions do not reduce well in the kernel).  String literals are written
  `"...".data`.
* Python floats are embedded as `ℚ`; `pd.isna`/NaN is `Option ℚ` with `none`
  for a missing value.  Python `round(x, 1)` (half-to-even) is `pyRound1`.
  The exact textual rendering of numbers inside human-readable digest strings
  is modelled by `fmtQ`/`intChars` (deterministic functions, standing in for
  CPython's float formatting; no claim depends on the exact digits).
* Python exceptions (pandas `KeyError` on a missing column) are modelled with
  `Except Str`.  A pandas data frame becomes a table: a list of column names
  plus a list of rows; a row cell read `row[col]` on a column that is present
  returns `Option ℚ` (the value, or `none` for NaN), and raises otherwise.
* The pandas presentation layer (`DataFrame.to_string`, text digests of
  matched rows) and the language-model transport are external collaborators
  per §1 of the spec; they appear as opaque function fields of the data
  bundle, while every branch, guard and literal text prefix of the
  repository's own code is embedded faithfully.
-/

/-! ## Python-style string and number primitives -/

abbrev Str := List Char

/-- Python `round` to an integer: round half to even (banker's rounding). -/
def roundHalfToEven (q : ℚ) : ℤ :=
  let f : ℤ := ⌊q⌋
  let r : ℚ := q - f
  if r < 1/2 then f
  else if 1/2 < r then f + 1
  else if f % 2 = 0 then f else f + 1

/-- Python `round(x, 1)`: round to one decimal place, half to even. -/
def pyRound1 (q : ℚ) : ℚ := (roundHalfToEven (q * 10) : ℚ) / 10

/-- Decimal digits of a natural number (fuel-structural so the kernel can
evaluate it; `fuel ≥ n` suffices). -/
def natChars (fuel : Nat) (n : Nat) : Str :=
  match fuel with
  | 0 => []
  | fuel + 1 =>
    let d := Char.ofNat (48 + n % 10)
    if n < 10 then [d] else natChars fuel (n / 10) ++ [d]

/-- Decimal rendering of an integer. -/
def intChars (i : Int) : Str :=
  match i with
  | .ofNat n => natChars (n + 1) n
  | .negSucc n => '-' :: natChars (n + 2) (n + 1)

/-- Deterministic rendering of a rational, standing in for Python's float
formatting inside f-strings. -/
def fmtQ (q : ℚ) : Str :=
  intChars q.num ++ (if q.den = 1 then [] else '/' :: natChars q.den q.den)

/-- Python `str.upper()` (ASCII). -/
def pyUpper (s : Str) : Str := s.map Char.toUpper

/-- Worker for `pyTitle`: the flag records whether the previous character was
a letter. -/
def pyTitleGo : Bool → Str → Str
  | _, [] => []
  | prevAlpha, c :: cs =>
    if c.isAlpha then
      (if prevAlpha then c.toLower else c.toUpper) :: pyTitleGo true cs
    else c :: pyTitleGo false cs

/-- Python `str.title()`: letters starting a run are uppercased, the rest
lowercased. -/
def pyTitle (s : Str) : Str := pyTitleGo false s

/-- `col.replace('_', ' ').title()` from `metrics_engine.py`. -/
def metricTitle (col : Str) : Str :=
  pyTitle (col.map fun c => if c = '_' then ' ' else c)

/-- `pandas.Series.mean()` with the default `skipna=True`: the mean of the
non-missing values, `none` (NaN) when all are missing. -/
def pandasMean (l : List (Option ℚ)) : Option ℚ :=
  let xs := l.filterMap id
  if xs.isEmpty then none else some (xs.sum / (xs.length : ℚ))

/-! ## Data model: pandas tables (`DataLoader` output)

`snowflake_metrics` rows carry `PERIOD_END_DATE`, `FISCAL_QUARTER`,
`FISCAL_YEAR` plus the named numeric metric columns; `peer_financials` is the
long/narrow layout (one row per company/metric/period).  The set of metric
columns actually present is `SnowTable.cols`; reading a cell of an absent
column raises `KeyError` (see `getCellE`), reading a present cell gives
`Option ℚ` (`none` = NaN). -/

structure SnowRow where
  period_end_date : Int
  fiscal_quarter : Str
  fiscal_year : Str
  cells : List (Str × Option ℚ)
  deriving DecidableEq, Repr

/-- `row[col]` for a column known to be present: the stored value (possibly
NaN). An absent assoc entry also reads as NaN. -/
def SnowRow.cell (r : SnowRow) (c : Str) : Option ℚ :=
  (r.cells.lookup c).join

structure SnowTable where
  cols : List Str
  rows : List SnowRow
  deriving DecidableEq, Repr

structure PeerRow where
  company_id : Str
  metric_name : Str
  period_end_date : Int
  metric_value : ℚ
  deriving DecidableEq, Repr

structure PeerTable where
  rows : List PeerRow
  deriving DecidableEq, Repr

/-- `row[col]` through the table: pandas raises `KeyError` when the column is
absent. -/
def getCellE (t : SnowTable) (r : SnowRow) (c : Str) : Except Str (Option ℚ) :=
  if c ∈ t.cols then .ok (r.cell c) else .error ("KeyError: ".data ++ c)

/-- `sort_values('PERIOD_END_DATE', ascending=False)` on the own-metrics
table: insertion sort, descending by period end date. -/
def insertSnowDesc (x : SnowRow) : List SnowRow → List SnowRow
  | [] => [x]
  | y :: ys =>
    if y.period_end_date ≤ x.period_end_date then x :: y :: ys
    else y :: insertSnowDesc x ys

def sortSnowDesc (l : List SnowRow) : List SnowRow := l.foldr insertSnowDesc []

/-- `sort_values('PERIOD_END_DATE', ascending=False)` on filtered peer rows. -/
def insertPeerDesc (x : PeerRow) : List PeerRow → List PeerRow
  | [] => [x]
  | y :: ys =>
    if y.period_end_date ≤ x.period_end_date then x :: y :: ys
    else y :: insertPeerDesc x ys

def sortPeerDesc (l : List PeerRow) : List PeerRow := l.foldr insertPeerDesc []

/-! ## Signal Engine (`src/utils/metrics_engine.py`) -/

structure Anomaly where
  metric : Str
  current : ℚ
  moving_avg : ℚ
  deviation_pct : ℚ
  threat : Str
  description : Str
  quarter : Str
  source_bucket : Nat
  deriving DecidableEq, Repr

structure Gap where
  competitor : Str
  snow_growth : ℚ
  comp_growth : ℚ
  gap : ℚ
  advantage : Bool
  deriving DecidableEq, Repr

structure AnalysisResult where
  anomalies : List Anomaly
  competitive_gaps : List Gap
  deriving DecidableEq, Repr

/-- `MetricsEngine.METRICS`: the monitored metric columns. -/
def METRICS : List Str :=
  ["PRODUCT_REVENUE_M".data, "TOTAL_REVENUE_M".data, "RPO_M".data,
   "NRR_PERCENT".data, "CUSTOMERS_1M_PLUS".data, "FCF_IN_MILLIONS".data,
   "GROSS_MARGIN_PERCENT".data]

/-- `f"Q{current['FISCAL_QUARTER']} FY{current['FISCAL_YEAR']}"`. -/
def quarterLabel (r : SnowRow) : Str :=
  'Q' :: (r.fiscal_quarter ++ (" FY".data ++ r.fiscal_year))

/-- Body of the per-metric loop of `MetricsEngine._detect_anomalies`
(lines 39-62): the finding the generic >20%-below-4Q-average rule produces
for one monitored column, if any.  `current` is the most recent row of
`snow`, `quarter` its quarter label. -/
def anomalyFor (snow : SnowTable) (current : SnowRow) (quarter : Str) (col : Str) :
    Option Anomaly :=
  if col ∈ snow.cols then
    let current_val := current.cell col
    let moving_avg := pandasMean (((snow.rows.drop 1).take 4).map (fun r => r.cell col))
    match current_val, moving_avg with
    | some cv, some ma =>
      if ma = 0 then none
      else
        let deviation := (cv - ma) / |ma|
        if deviation < -(20/100 : ℚ) then
          some { metric := metricTitle col
               , current := cv
               , moving_avg := pyRound1 ma
               , deviation_pct := pyRound1 (deviation * 100)
               , threat := if deviation < -(30/100 : ℚ) then "HIGH".data else "MEDIUM".data
               , description := metricTitle col ++ (" is ".data ++
                   (intChars (roundHalfToEven (|deviation| * 100)) ++ "% below 4Q average".data))
               , quarter := quarter
               , source_bucket := 1 }
        else none
    | _, _ => none
  else none

/-- `MetricsEngine._detect_anomalies`: requires at least 5 quarters of
history, then checks every monitored metric against its 4-quarter trailing
average. -/
def detect_anomalies (snow : SnowTable) : List Anomaly :=
  if snow.rows.length < 5 then []
  else
    match snow.rows with
    | [] => []
    | current :: _ => METRICS.filterMap (anomalyFor snow current (quarterLabel current))

/-- `MetricsEngine._detect_nrr_decline`: flags HIGH when the four most recent
NRR values, most-recent-first, are strictly increasing backwards in time
(`nrr[i] < nrr[i+1]` for i = 0,1,2). -/
def detect_nrr_decline (snow : SnowTable) : List Anomaly :=
  if "NRR_PERCENT".data ∈ snow.cols ∧ 4 ≤ snow.rows.length then
    match (snow.rows.take 4).map (fun r => r.cell "NRR_PERCENT".data) with
    | [some v0, some v1, some v2, some v3] =>
      if v0 < v1 ∧ v1 < v2 ∧ v2 < v3 then
        match snow.rows with
        | current :: _ =>
          [{ metric := "Net Revenue Retention".data
           , current := v0
           , moving_avg := v3
           , deviation_pct := pyRound1 ((v0 - v3) / v3 * 100)
           , threat := "HIGH".data
           , description := "NRR declining for 4 quarters: ".data ++
               (fmtQ v3 ++ ("% -> ".data ++ (fmtQ v0 ++ "%".data)))
           , quarter := quarterLabel current
           , source_bucket := 1 }]
        | [] => []
      else []
    | _ => []
  else []

/-- The fixed competitor/metric pairs of `_detect_competitive_gaps`. -/
def COMPETITORS : List (Str × Str) :=
  [("GOOGL".data, "CLOUD_REVENUE".data), ("AMZN".data, "AWS_REVENUE".data)]

/-- Body of the competitor loop of `MetricsEngine._detect_competitive_gaps`
(lines 101-123): the gap entry for one competitor, or `none` when it has
fewer than 5 periods of history or a zero prior-year value. -/
def gapFor (peer : PeerTable) (snow_growth : ℚ) (comp : Str × Str) : Option Gap :=
  let comp_data := sortPeerDesc (peer.rows.filter fun r =>
    r.company_id == comp.1 && r.metric_name == comp.2)
  if comp_data.length < 5 then none
  else
    match comp_data with
    | c0 :: _ :: _ :: _ :: c4 :: _ =>
      let comp_current := c0.metric_value
      let comp_yoy := c4.metric_value
      if comp_yoy = 0 then none
      else
        let comp_growth := (comp_current - comp_yoy) / comp_yoy * 100
        let gap := snow_growth - comp_growth
        some { competitor := comp.1
             , snow_growth := pyRound1 snow_growth
             , comp_growth := pyRound1 comp_growth
             , gap := pyRound1 gap
             , advantage := decide (gap > 0) }
    | _ => none

/-- `MetricsEngine._detect_competitive_gaps`: Snowflake year-over-year
product-revenue growth against each tracked competitor.  Reading
`PRODUCT_REVENUE_M` raises `KeyError` when the column is absent (the source
has no column guard here, unlike `_detect_anomalies`). -/
def detect_competitive_gaps (snow : SnowTable) (peer : PeerTable) :
    Except Str (List Gap) :=
  if snow.rows.length < 5 then .ok []
  else
    match snow.rows with
    | r0 :: _ :: _ :: _ :: r4 :: _ => do
      let snow_current ← getCellE snow r0 "PRODUCT_REVENUE_M".data
      let snow_yoy ← getCellE snow r4 "PRODUCT_REVENUE_M".data
      match snow_current, snow_yoy with
      | some sc, some sy =>
        if sy = 0 then .ok []
        else
          .ok (COMPETITORS.filterMap (gapFor peer ((sc - sy) / sy * 100)))
      | _, _ => .ok []
    | _ => .ok []

/-- The engine's mutable state: the two tables plus the accumulating finding
lists (`self.anomalies`, `self.competitive_gaps`). -/
structure MetricsEngine where
  snow_df : SnowTable
  peer_df : PeerTable
  anomalies : List Anomaly
  competitive_gaps : List Gap
  deriving DecidableEq, Repr

/-- `MetricsEngine.__init__`: sorts the own-metrics table descending by
period end date and starts with empty finding lists. -/
def MetricsEngine.init (snowflake_metrics : SnowTable) (peer_financials : PeerTable) :
    MetricsEngine :=
  { snow_df := { cols := snowflake_metrics.cols, rows := sortSnowDesc snowflake_metrics.rows }
  , peer_df := peer_financials
  , anomalies := []
  , competitive_gaps := [] }

/-- `MetricsEngine.run_analysis`: runs the three detection passes, each of
which APPENDS to the instance's finding lists, and returns the accumulated
lists.  Returns the new instance state alongside the result dict. -/
def MetricsEngine.run_analysis (e : MetricsEngine) :
    Except Str (MetricsEngine × AnalysisResult) :=
  let e1 : MetricsEngine := { e with anomalies := e.anomalies ++ detect_anomalies e.snow_df }
  let e2 : MetricsEngine := { e1 with anomalies := e1.anomalies ++ detect_nrr_decline e1.snow_df }
  match detect_competitive_gaps e2.snow_df e2.peer_df with
  | .error msg => .error msg
  | .ok gaps =>
    let e3 : MetricsEngine := { e2 with competitive_gaps := e2.competitive_gaps ++ gaps }
    .ok (e3, { anomalies := e3.anomalies, competitive_gaps := e3.competitive_gaps })

/-! ## Structured output parser (`parse_questions` in `src/app.py`)

All operations are over `Str`; `pyStrip` is Python `str.strip()`,
`splitOnChar` is `str.split(c)`, `splitOnMarker` is
`re.split(r'QUESTION:', ...)` (a literal-text regex), `containsSeq` is the
Python `in` substring test. -/

def isPySpace (c : Char) : Bool :=
  c == ' ' || c == '\t' || c == '\n' || c == '\r' || c == '\x0b' || c == '\x0c'

/-- Python `str.strip()`: drop leading and trailing whitespace. -/
def pyStrip (s : Str) : Str :=
  ((s.dropWhile isPySpace).reverse.dropWhile isPySpace).reverse

/-- Python `str.split(c)` for a single-character separator. -/
def splitOnChar (c : Char) : Str → List Str
  | [] => [[]]
  | a :: as =>
    let r := splitOnChar c as
    if a = c then [] :: r
    else
      match r with
      | [] => [[a]]
      | h :: t => (a :: h) :: t

/-- Python `str.split(':', 1)`: the part before the first colon, and the
remainder after it when a colon is present. -/
def splitColon1 : Str → Str × Option Str
  | [] => ([], none)
  | a :: as =>
    if a = ':' then ([], some as)
    else
      let r := splitColon1 as
      (a :: r.1, r.2)

/-- `re.split(r'QUESTION:', response)`: split on the literal marker,
scanning left to right, non-overlapping. -/
def splitOnMarker : Str → List Str
  | 'Q' :: 'U' :: 'E' :: 'S' :: 'T' :: 'I' :: 'O' :: 'N' :: ':' :: rest =>
    [] :: splitOnMarker rest
  | a :: as =>
    match splitOnMarker as with
    | [] => [[a]]
    | h :: t => (a :: h) :: t
  | [] => [[]]

/-- Whether the literal marker `QUESTION:` occurs anywhere in the string. -/
def hasMarker : Str → Bool
  | 'Q' :: 'U' :: 'E' :: 'S' :: 'T' :: 'I' :: 'O' :: 'N' :: ':' :: _ => true
  | _ :: as => hasMarker as
  | [] => false

/-- Python substring test `sub in line` (for non-empty `sub`). -/
def containsSeq (sub : Str) : Str → Bool
  | [] => sub.isEmpty
  | a :: as => sub.isPrefixOf (a :: as) || containsSeq sub as

/-- The fixed source-bucket lookup table of `parse_questions`. -/
def bucket_names : List (Str × Str) :=
  [("1".data, "Filings/Press".data), ("2".data, "Transcripts".data),
   ("3".data, "Analyst Research".data)]

/-- `bucket_names.get(bucket, bucket)`: translate a known code, pass an
unrecognized one through verbatim. -/
def bucketLabel (bucket : Str) : Str := (bucket_names.lookup bucket).getD bucket

structure Question where
  question : Str
  threat : Option Str
  source : Option Str
  bucket : Option Str
  data_point : Option Str
  deriving DecidableEq, Repr

/-- Body of the `for line in lines[1:]` loop of `parse_questions`: the three
field-marker checks applied to one line (each check is an independent `if`,
so one line can set several fields; a later line overwrites an earlier one). -/
def parseLine (q : Question) (line : Str) : Question :=
  let q := if containsSeq "THREAT_LEVEL:".data line then
      { q with threat := some (pyStrip ((splitOnChar ':' line).getD 1 [])) }
    else q
  let q := if containsSeq "SOURCE_BUCKET:".data line then
      let bucket := pyStrip ((splitOnChar ':' line).getD 1 [])
      { q with source := some (bucketLabel bucket), bucket := some bucket }
    else q
  let q := if containsSeq "DATA_POINT:".data line then
      { q with data_point := some (pyStrip ((splitColon1 line).2.getD [])) }
    else q
  q

/-- One iteration of the `for block in blocks` loop of `parse_questions`:
`none` when the block is discarded (`q.get('question')` falsy). -/
def parseBlock (block : Str) : Option Question :=
  let lines := splitOnChar '\n' (pyStrip block)
  let question := pyStrip (lines.headD [])
  let q := (lines.drop 1).foldl parseLine
    { question := question, threat := none, source := none, bucket := none, data_point := none }
  if question.isEmpty then none else some q

/-- `parse_questions` (`src/app.py` lines 50-74). -/
def parse_questions (response : Str) : List Question :=
  ((splitOnMarker response).drop 1).filterMap parseBlock

/-! ## Tool dispatch registry (`src/utils/tools.py`)

The pandas row-formatting bodies of the query tools (the text after each
tool's fixed literal prefix) and the emptiness of each filtered frame are
thin presentation-layer computations over the CSV data (§1/§6 of the spec:
external collaborators); they are opaque function fields of `DataBundle`.
Every branch, default, literal prefix and the dispatch chain itself follow
`tools.py` line by line. -/

inductive Arg
  | s (v : Str)
  | i (v : Int)
  deriving DecidableEq, Repr

/-- The `tool_input` dict of a tool invocation. -/
abbrev ToolInput := List (Str × Arg)

/-- `tool_input.get(key, default)` for string-valued arguments. -/
def ToolInput.getStr (inp : ToolInput) (k : Str) (dflt : Str) : Str :=
  match inp.lookup k with
  | some (.s v) => v
  | _ => dflt

/-- `tool_input.get(key, default)` for integer-valued arguments. -/
def ToolInput.getInt (inp : ToolInput) (k : Str) (dflt : Int) : Int :=
  match inp.lookup k with
  | some (.i v) => v
  | _ => dflt

structure DataBundle where
  snowflake_metrics : SnowTable
  peer_financials : PeerTable
  renderMetricsTable : List SnowRow → List Str → Str
  transcriptsFound : Str → Str → Int → Bool
  transcriptsBody : Str → Str → Int → Str
  ratingsFound : Str → Bool
  ratingsBody : Str → Str
  newsFound : Str → Bool
  newsBody : Str → Str
  filingsFound : Str → Int → Bool
  filingsBody : Str → Int → Str
  pressFound : Str → Int → Bool
  pressBody : Str → Int → Str
  compareFound : Str → Bool
  compareBody : Str → Str → Str
  availableCompanies : Str

/-- `pandas.DataFrame.tail(n)`: the last `n` rows in stored order (for
negative `n`, everything but the first `|n|` rows). -/
def tailRows (rows : List SnowRow) (n : Int) : List SnowRow :=
  if 0 ≤ n then rows.drop (rows.length - n.toNat) else rows.drop ((-n).toNat)

/-- The column selection of `_get_snowflake_metrics` per metric choice
(`[c for c in cols if c in df.columns]`); the final `else` falls back to the
whole frame like the source does. -/
def metricColsFor (metric : Str) (cols : List Str) : List Str :=
  if metric = "all".data then cols
  else if metric = "revenue".data then
    ["FISCAL_QUARTER".data, "PRODUCT_REVENUE_M".data, "TOTAL_REVENUE_M".data].filter cols.contains
  else if metric = "nrr".data then
    ["FISCAL_QUARTER".data, "NRR_PERCENT".data].filter cols.contains
  else if metric = "rpo".data then
    ["FISCAL_QUARTER".data, "RPO_M".data].filter cols.contains
  else if metric = "fcf".data then
    ["FISCAL_QUARTER".data, "FCF_IN_MILLIONS".data].filter cols.contains
  else if metric = "margins".data then
    ["FISCAL_QUARTER".data, "GROSS_MARGIN_PERCENT".data].filter cols.contains
  else if metric = "customers".data then
    ["FISCAL_QUARTER".data, "CUSTOMERS_1M_PLUS".data].filter cols.contains
  else cols

/-- `DataTools._get_snowflake_metrics`: digest of `df.tail(quarters)` on the
selected columns. -/
def DataTools.get_snowflake_metrics (b : DataBundle) (metric : Str) (quarters : Int) : Str :=
  let df := tailRows b.snowflake_metrics.rows quarters
  "SNOWFLAKE METRICS (".data ++ (intChars quarters ++ (" quarters):\n".data ++
    b.renderMetricsTable df (metricColsFor metric b.snowflake_metrics.cols)))

/-- `DataTools._search_transcripts`. -/
def DataTools.search_transcripts (b : DataBundle) (keyword company : Str) (limit : Int) : Str :=
  if b.transcriptsFound keyword company limit then
    "TRANSCRIPT SEARCH RESULTS:\n".data ++ b.transcriptsBody keyword company limit
  else
    "No transcripts found for keyword '".data ++ (keyword ++
      ("' and company '".data ++ (company ++ "'".data)))

/-- `DataTools._get_analyst_ratings`. -/
def DataTools.get_analyst_ratings (b : DataBundle) (company : Str) : Str :=
  if b.ratingsFound company then
    "ANALYST RATINGS FOR ".data ++ (company ++ (":\n".data ++ b.ratingsBody company))
  else "No analyst ratings found for ".data ++ company

/-- `DataTools._get_competitor_news`. -/
def DataTools.get_competitor_news (b : DataBundle) (ticker : Str) : Str :=
  if b.newsFound ticker then "COMPETITOR NEWS:\n".data ++ b.newsBody ticker
  else "No news found for ".data ++ ticker

/-- `f"{x:.1f}"` applied to an engine growth figure (already rounded to one
decimal by the engine). -/
def fmtGapPct (q : ℚ) : Str := fmtQ (pyRound1 q)

/-- `DataTools._check_anomalies`: constructs a FRESH `MetricsEngine` over the
bundle's tables, runs the analysis, and formats both finding categories as
bullets.  An engine `KeyError` propagates (the source has no handler). -/
def DataTools.check_anomalies (b : DataBundle) : Except Str Str :=
  match (MetricsEngine.init b.snowflake_metrics b.peer_financials).run_analysis with
  | .error e => .error e
  | .ok (_, analysis) =>
    let anomalies := analysis.anomalies
    let gaps := analysis.competitive_gaps
    let part1 :=
      if anomalies.isEmpty then "- No major anomalies detected\n".data
      else (anomalies.map fun a =>
        "- [".data ++ (a.threat ++ ("] ".data ++ (a.metric ++ (": ".data ++
          (a.description ++ "\n".data)))))).flatten
    let part2 :=
      (gaps.map fun g =>
        let status := if g.advantage then "ahead".data else "behind".data
        "- vs ".data ++ (g.competitor ++ (": SNOW ".data ++ (fmtGapPct g.snow_growth ++
          ("% vs ".data ++ (fmtGapPct g.comp_growth ++ ("% (".data ++
            (status ++ ")\n".data)))))))).flatten
    .ok ("DETECTED ANOMALIES:\n".data ++ (part1 ++ ("\nCOMPETITIVE GAPS:\n".data ++ part2)))

/-- `DataTools._get_sec_filings`. -/
def DataTools.get_sec_filings (b : DataBundle) (filing_type : Str) (limit : Int) : Str :=
  if b.filingsFound filing_type limit then "SEC FILINGS:\n".data ++ b.filingsBody filing_type limit
  else "No SEC filings found for type '".data ++ (filing_type ++ "'".data)

/-- `DataTools._get_press_releases`. -/
def DataTools.get_press_releases (b : DataBundle) (keyword : Str) (limit : Int) : Str :=
  if b.pressFound keyword limit then "PRESS RELEASES:\n".data ++ b.pressBody keyword limit
  else
    "No press releases found".data ++
      (if keyword.isEmpty then [] else " for keyword '".data ++ (keyword ++ "'".data))

/-- `DataTools._compare_to_competitor`. -/
def DataTools.compare_to_competitor (b : DataBundle) (competitor metric : Str) : Str :=
  if b.compareFound (pyUpper competitor) then
    "COMPARISON: SNOWFLAKE vs ".data ++ (pyUpper competitor ++
      ("\n\n".data ++ b.compareBody competitor metric))
  else
    "No data found for competitor '".data ++ (competitor ++
      ("'. Available companies: ".data ++ b.availableCompanies))

/-- The names declared by `DataTools.get_tool_definitions` (the registry's
catalog, in declaration order). -/
def toolCatalogNames : List Str :=
  ["get_snowflake_metrics".data, "search_transcripts".data, "get_analyst_ratings".data,
   "get_competitor_news".data, "check_anomalies".data, "get_sec_filings".data,
   "get_press_releases".data, "compare_to_competitor".data, "generate_questions".data]

/-- `DataTools.execute_tool` (`tools.py` lines 174-225): the dispatch chain,
with each declared default applied via `tool_input.get`. -/
def DataTools.execute_tool (b : DataBundle) (tool_name : Str) (tool_input : ToolInput) :
    Except Str Str :=
  if tool_name = "get_snowflake_metrics".data then
    .ok (DataTools.get_snowflake_metrics b (tool_input.getStr "metric".data "all".data)
      (tool_input.getInt "quarters".data 4))
  else if tool_name = "search_transcripts".data then
    .ok (DataTools.search_transcripts b (tool_input.getStr "keyword".data [])
      (tool_input.getStr "company".data "all".data) (tool_input.getInt "limit".data 3))
  else if tool_name = "get_analyst_ratings".data then
    .ok (DataTools.get_analyst_ratings b (tool_input.getStr "company".data "SNOW".data))
  else if tool_name = "get_competitor_news".data then
    .ok (DataTools.get_competitor_news b (tool_input.getStr "ticker".data "all".data))
  else if tool_name = "check_anomalies".data then
    DataTools.check_anomalies b
  else if tool_name = "get_sec_filings".data then
    .ok (DataTools.get_sec_filings b (tool_input.getStr "filing_type".data "all".data)
      (tool_input.getInt "limit".data 3))
  else if tool_name = "get_press_releases".data then
    .ok (DataTools.get_press_releases b (tool_input.getStr "keyword".data [])
      (tool_input.getInt "limit".data 5))
  else if tool_name = "compare_to_competitor".data then
    .ok (DataTools.compare_to_competitor b (tool_input.getStr "competitor".data [])
      (tool_input.getStr "metric".data "all".data))
  else if tool_name = "generate_questions".data then
    .ok ("GENERATE_QUESTIONS:".data ++ tool_input.getStr "findings".data [])
  else
    .ok ("Unknown tool: ".data ++ tool_name)

/-! ## Orchestration loops (`src/utils/agent.py`)

The language-model service is abstracted as: `script turn` — the typed block
sequence returned by the research model call of the given turn — and
`complete findings actual` / `completeD talking actual` — the text returned
by the single synthesis call (`_generate_final_questions` /
`_generate_final_defense`) as a function of its run-dependent prompt inputs.
A run is embedded as the list of its trace items: each research model call
(`modelTurn`), the synthesis model call (`synthCall`), each
`execute_tool` execution (`toolExec`), and each yielded event (`ev`). -/

inductive Block
  | text (s : Str)
  | tool_use (id : Str) (name : Str) (input : ToolInput)
  deriving DecidableEq, Repr

abbrev Response := List Block

inductive Event
  | tool_call (tool : Str) (input : ToolInput)
  | tool_result (content : Str)
  | complete (content : Str)
  | questions (content : Str)
  | defense (content : Str)
  | error (content : Str)
  deriving DecidableEq, Repr

inductive TraceItem
  | modelTurn
  | synthCall
  | toolExec (name : Str)
  | ev (e : Event)
  deriving DecidableEq, Repr

/-- `[block for block in assistant_content if block.type == "tool_use"]`. -/
def toolCallsOf (r : Response) : List (Str × ToolInput) :=
  r.filterMap fun bl =>
    match bl with
    | .tool_use _ name input => some (name, input)
    | _ => none

/-- `"\n".join(...)` and friends. -/
def joinWith (sep : Str) : List Str → Str
  | [] => []
  | [x] => x
  | x :: xs => x ++ (sep ++ joinWith sep xs)

/-- `[block.text for block in assistant_content if hasattr(block, 'text')]`
joined with newlines. -/
def textJoin (r : Response) : Str :=
  joinWith "\n".data (r.filterMap fun bl =>
    match bl with
    | .text s => some s
    | _ => none)

/-- `result[:500] + "..." if len(result) > 500 else result`. -/
def preview (result : Str) : Str :=
  if 500 < result.length then result.take 500 ++ "...".data else result

/-- `result.replace("GENERATE_QUESTIONS:", "")`. -/
def removeGQ : Str → Str
  | 'G' :: 'E' :: 'N' :: 'E' :: 'R' :: 'A' :: 'T' :: 'E' :: '_' :: 'Q' :: 'U' :: 'E' :: 'S' :: 'T' :: 'I' :: 'O' :: 'N' :: 'S' :: ':' :: rest => removeGQ rest
  | a :: as => a :: removeGQ as
  | [] => []

/-- `f"[{tool_name}]:\n{result}"` appended to `collected_data`. -/
def collectedTag (tool_name result : Str) : Str :=
  '[' :: (tool_name ++ ("]:\n".data ++ result))

/-- The inner `for tool_call in tool_calls` loop of `QuestionAgent.run`:
yields the tool-call event, executes the tool, and either short-circuits into
the synthesis call (when the result carries the `GENERATE_QUESTIONS:`
sentinel prefix) or records the result and continues.  Returns the batch
trace and `some` of the grown `collected_data` when the run continues,
`none` when it returned. -/
def questionRunTools (b : DataBundle) (complete : Str → Str → Str) :
    List (Str × ToolInput) → List Str → Except Str (List TraceItem × Option (List Str))
  | [], collected => .ok ([], some collected)
  | (tool_name, tool_input) :: rest, collected =>
    match DataTools.execute_tool b tool_name tool_input with
    | .error e => .error e
    | .ok result =>
      if "GENERATE_QUESTIONS:".data.isPrefixOf result then
        .ok ([.ev (.tool_call tool_name tool_input), .toolExec tool_name, .synthCall,
              .ev (.questions (complete (removeGQ result) (joinWith "\n\n".data collected)))],
             none)
      else
        match questionRunTools b complete rest (collected ++ [collectedTag tool_name result]) with
        | .error e => .error e
        | .ok (tr, cont) =>
          .ok ([.ev (.tool_call tool_name tool_input), .toolExec tool_name,
                .ev (.tool_result (preview result))] ++ tr, cont)

/-- The `for turn in range(self.max_turns)` loop of `QuestionAgent.run`,
structured on the remaining turn budget (`fuel`); `turn` is the absolute
turn index used to query the model script. -/
def questionLoop (b : DataBundle) (script : Nat → Response) (complete : Str → Str → Str) :
    Nat → Nat → List Str → Except Str (List TraceItem)
  | 0, _, _ => .ok [.ev (.error "Max turns reached".data)]
  | fuel + 1, turn, collected =>
    let resp := script turn
    let tool_calls := toolCallsOf resp
    if tool_calls.isEmpty then .ok [.modelTurn, .ev (.complete (textJoin resp))]
    else
      match questionRunTools b complete tool_calls collected with
      | .error e => .error e
      | .ok (tr, none) => .ok (.modelTurn :: tr)
      | .ok (tr, some collected2) =>
        match questionLoop b script complete fuel (turn + 1) collected2 with
        | .error e => .error e
        | .ok rest => .ok (.modelTurn :: (tr ++ rest))

def QuestionAgent.max_turns : Nat := 5

/-- `QuestionAgent.run` (`agent.py` lines 19-97). -/
def QuestionAgent.run (b : DataBundle) (script : Nat → Response)
    (complete : Str → Str → Str) : Except Str (List TraceItem) :=
  questionLoop b script complete QuestionAgent.max_turns 0 []

/-- The inner tool loop of `DefenseAgent.run`: the `generate_defense`
sentinel is recognized BY NAME before any execution and never reaches
`execute_tool`. -/
def defenseRunTools (b : DataBundle) (completeD : Str → Str → Str) :
    List (Str × ToolInput) → List Str → Except Str (List TraceItem × Option (List Str))
  | [], collected => .ok ([], some collected)
  | (tool_name, tool_input) :: rest, collected =>
    if tool_name = "generate_defense".data then
      .ok ([.ev (.tool_call tool_name tool_input), .synthCall,
            .ev (.defense (completeD (tool_input.getStr "talking_points".data [])
              (joinWith "\n\n".data collected)))],
           none)
    else
      match DataTools.execute_tool b tool_name tool_input with
      | .error e => .error e
      | .ok result =>
        match defenseRunTools b completeD rest (collected ++ [collectedTag tool_name result]) with
        | .error e => .error e
        | .ok (tr, cont) =>
          .ok ([.ev (.tool_call tool_name tool_input), .toolExec tool_name,
                .ev (.tool_result (preview result))] ++ tr, cont)

/-- The turn loop of `DefenseAgent.run`. -/
def defenseLoop (b : DataBundle) (script : Nat → Response) (completeD : Str → Str → Str) :
    Nat → Nat → List Str → Except Str (List TraceItem)
  | 0, _, _ => .ok [.ev (.error "Max turns reached".data)]
  | fuel + 1, turn, collected =>
    let resp := script turn
    let tool_calls := toolCallsOf resp
    if tool_calls.isEmpty then .ok [.modelTurn, .ev (.complete (textJoin resp))]
    else
      match defenseRunTools b completeD tool_calls collected with
      | .error e => .error e
      | .ok (tr, none) => .ok (.modelTurn :: tr)
      | .ok (tr, some collected2) =>
        match defenseLoop b script completeD fuel (turn + 1) collected2 with
        | .error e => .error e
        | .ok rest => .ok (.modelTurn :: (tr ++ rest))

def DefenseAgent.max_turns : Nat := 4

/-- `DefenseAgent.run` (`agent.py` lines 208-285). -/
def DefenseAgent.run (b : DataBundle) (script : Nat → Response)
    (completeD : Str → Str → Str) : Except Str (List TraceItem) :=
  defenseLoop b script completeD DefenseAgent.max_turns 0 []

/-! ## Trace observations -/

def countModelTurns (t : List TraceItem) : Nat :=
  (t.filter fun i => match i with | .modelTurn => true | _ => false).length

def countSynthCalls (t : List TraceItem) : Nat :=
  (t.filter fun i => match i with | .synthCall => true | _ => false).length

def questionsTexts (t : List TraceItem) : List Str :=
  t.filterMap fun i => match i with | .ev (.questions c) => some c | _ => none

def defenseTexts (t : List TraceItem) : List Str :=
  t.filterMap fun i => match i with | .ev (.defense c) => some c | _ => none

def errorTexts (t : List TraceItem) : List Str :=
  t.filterMap fun i => match i with | .ev (.error c) => some c | _ => none

def completeTexts (t : List TraceItem) : List Str :=
  t.filterMap fun i => match i with | .ev (.complete c) => some c | _ => none

/-- The names of the tools actually executed against the dataset, in order. -/
def execNames (t : List TraceItem) : List Str :=
  t.filterMap fun i => match i with | .toolExec n => some n | _ => none

/-- The tool names requested by one model response, in order. -/
def batchNames (r : Response) : List Str := (toolCallsOf r).map (·.1)

/-- Tool names requested over `k` consecutive turns starting at `turn`. -/
def batchesNames (script : Nat → Response) : Nat → Nat → List Str
  | _, 0 => []
  | turn, k + 1 => batchNames (script turn) ++ batchesNames script (turn + 1) k

/-- The engine (hence `check_anomalies`) cannot raise on this bundle: fewer
than 5 metric rows, or the product-revenue column present. -/
def bundleSafe (b : DataBundle) : Prop :=
  b.snowflake_metrics.rows.length < 5 ∨
    "PRODUCT_REVENUE_M".data ∈ b.snowflake_metrics.cols

/-! ## Specification predicates (conclusions of the claim theorems) -/

/-- C1 (amended, same-instance part): a second `run_analysis` on the instance
returned by a first successful one appends a second copy of every finding:
it returns the first run's lists each concatenated with themselves. -/
def rerunSpec (e1 : MetricsEngine) (r1 : AnalysisResult) : Prop :=
  e1.run_analysis = .ok
    ({ e1 with anomalies := r1.anomalies ++ r1.anomalies
             , competitive_gaps := r1.competitive_gaps ++ r1.competitive_gaps },
     { anomalies := r1.anomalies ++ r1.anomalies
     , competitive_gaps := r1.competitive_gaps ++ r1.competitive_gaps })

/-- C2: behaviour of the generic deviation rule for one monitored metric with
current value `cv` and trailing average `ma`. -/
def anomalyRuleSpec (snow : SnowTable) (current : SnowRow) (quarter col : Str)
    (cv ma : ℚ) : Prop :=
  ((anomalyFor snow current quarter col).isSome ↔ (cv - ma) / |ma| < -(20/100)) ∧
  (∀ a, anomalyFor snow current quarter col = some a →
    a.threat = (if (cv - ma) / |ma| < -(30/100) then "HIGH".data else "MEDIUM".data) ∧
    a.metric = metricTitle col) ∧
  ((cv - ma) / |ma| = -(20/100) → anomalyFor snow current quarter col = none) ∧
  (0 < (cv - ma) / |ma| → anomalyFor snow current quarter col = none) ∧
  (5 ≤ snow.rows.length → snow.rows.head? = some current → col ∈ METRICS →
    quarter = quarterLabel current →
    ∀ a, anomalyFor snow current quarter col = some a → a ∈ detect_anomalies snow)

/-- C3: behaviour of the consecutive-decline rule when the four most recent
NRR values are `v0, v1, v2, v3` (most recent first), all present. -/
def nrrRuleSpec (snow : SnowTable) (v0 v1 v2 v3 : ℚ) : Prop :=
  (detect_nrr_decline snow ≠ [] ↔ (v0 < v1 ∧ v1 < v2 ∧ v2 < v3)) ∧
  (∀ a ∈ detect_nrr_decline snow,
    a.metric = "Net Revenue Retention".data ∧ a.threat = "HIGH".data) ∧
  (detect_nrr_decline snow = [] ∨ ∃ a, detect_nrr_decline snow = [a])

/-- C5 (question variant): the run stops at the first sentinel with exactly
one synthesis call, exactly one final-result event carrying the synthesis
call's text, no further model turn, and no tool executed past the sentinel. -/
def sentinelSpecQ (b : DataBundle) (script : Nat → Response)
    (complete : Str → Str → Str) (k : Nat) : Prop :=
  ∃ t, QuestionAgent.run b script complete = .ok t ∧
    countModelTurns t = k + 1 ∧
    countSynthCalls t = 1 ∧
    (∃ f a, questionsTexts t = [complete f a]) ∧
    errorTexts t = [] ∧ completeTexts t = [] ∧
    execNames t = batchesNames script 0 k ++
      ((batchNames (script k)).takeWhile (fun n => n ≠ "generate_questions".data) ++
        ["generate_questions".data])

/-- C5 (defense variant): as `sentinelSpecQ`; the `generate_defense` sentinel
itself is never dispatched to `execute_tool`. -/
def sentinelSpecD (b : DataBundle) (script : Nat → Response)
    (completeD : Str → Str → Str) (k : Nat) : Prop :=
  ∃ t, DefenseAgent.run b script completeD = .ok t ∧
    countModelTurns t = k + 1 ∧
    countSynthCalls t = 1 ∧
    (∃ p a, defenseTexts t = [completeD p a]) ∧
    errorTexts t = [] ∧ completeTexts t = [] ∧
    execNames t = batchesNames script 0 k ++
      (batchNames (script k)).takeWhile (fun n => n ≠ "generate_defense".data)

/-- C6 (question variant): with tool calls every turn and no sentinel, the
run places exactly `max_turns` research calls, no synthesis, and one
terminal error event with the fixed diagnostic. -/
def exhaustSpecQ (b : DataBundle) (script : Nat → Response)
    (complete : Str → Str → Str) : Prop :=
  ∃ t, QuestionAgent.run b script complete = .ok t ∧
    countModelTurns t = QuestionAgent.max_turns ∧
    countSynthCalls t = 0 ∧
    questionsTexts t = [] ∧ completeTexts t = [] ∧
    errorTexts t = ["Max turns reached".data]

/-- C6 (defense variant). -/
def exhaustSpecD (b : DataBundle) (script : Nat → Response)
    (completeD : Str → Str → Str) : Prop :=
  ∃ t, DefenseAgent.run b script completeD = .ok t ∧
    countModelTurns t = DefenseAgent.max_turns ∧
    countSynthCalls t = 0 ∧
    defenseTexts t = [] ∧ completeTexts t = [] ∧
    errorTexts t = ["Max turns reached".data]

/-- C7 (amended): the gap entry produced for a competitor whose filtered,
date-sorted history starts `c0, ..., c4, ...` with a non-zero prior-year
value: the stored gap is the rounded difference of the growth rates, the
advantage flag comes from the unrounded difference. -/
def gapProducedSpec (peer : PeerTable) (snow_growth : ℚ) (comp : Str × Str)
    (c0 c4 : PeerRow) : Prop :=
  let comp_growth := (c0.metric_value - c4.metric_value) / c4.metric_value * 100
  ∃ g, gapFor peer snow_growth comp = some g ∧
    g.competitor = comp.1 ∧
    g.snow_growth = pyRound1 snow_growth ∧
    g.comp_growth = pyRound1 comp_growth ∧
    g.gap = pyRound1 (snow_growth - comp_growth) ∧
    (g.advantage = true ↔ 0 < snow_growth - comp_growth)

/-- C8: the engine completes without an exception. -/
def degradeSpec (s : SnowTable) (p : PeerTable) : Prop :=
  ∃ res, (MetricsEngine.init s p).run_analysis = .ok res

/-- C9: dispatching an unrecognized tool name returns (never raises) a
non-empty diagnostic string that names the tool. -/
def unknownToolSpec (b : DataBundle) (tool_name : Str) (tool_input : ToolInput) : Prop :=
  DataTools.execute_tool b tool_name tool_input = .ok ("Unknown tool: ".data ++ tool_name) ∧
  ("Unknown tool: ".data ++ tool_name) ≠ [] ∧
  containsSeq tool_name ("Unknown tool: ".data ++ tool_name) = true

/-- C10: `get_snowflake_metrics` with `quarters = n` on a table of more than
`n` rows digests exactly the LAST `n` stored rows; when the stored order is
strictly latest-first these are the `n` oldest quarters and the most recent
row is excluded. -/
def tailDigestSpec (b : DataBundle) (tool_input : ToolInput) (metric : Str) (n : Nat) : Prop :=
  DataTools.execute_tool b "get_snowflake_metrics".data tool_input =
    .ok ("SNOWFLAKE METRICS (".data ++ (intChars (Int.ofNat n) ++ (" quarters):\n".data ++
      b.renderMetricsTable
        (b.snowflake_metrics.rows.drop (b.snowflake_metrics.rows.length - n))
        (metricColsFor metric b.snowflake_metrics.cols)))) ∧
  (b.snowflake_metrics.rows.drop (b.snowflake_metrics.rows.length - n)).length = n ∧
  (List.Pairwise (fun a c => c.period_end_date < a.period_end_date) b.snowflake_metrics.rows →
    ∀ r0, b.snowflake_metrics.rows.head? = some r0 →
      (∀ r ∈ b.snowflake_metrics.rows.drop (b.snowflake_metrics.rows.length - n),
        r.period_end_date < r0.period_end_date) ∧
      r0 ∉ b.snowflake_metrics.rows.drop (b.snowflake_metrics.rows.length - n) ∧
      (∀ r' ∈ b.snowflake_metrics.rows.take (b.snowflake_metrics.rows.length - n),
        ∀ r ∈ b.snowflake_metrics.rows.drop (b.snowflake_metrics.rows.length - n),
          r.period_end_date < r'.period_end_date))

/-! ## Concrete fixtures -/

/-- A quarterly row with the given date and cells (quarter labels fixed). -/
def mkRow (date : Int) (cells : List (Str × Option ℚ)) : SnowRow :=
  { period_end_date := date, fiscal_quarter := "3".data, fiscal_year := "2026".data
  , cells := cells }

/-- C1: four quarters of strictly declining NRR (most recent first), enough
for the NRR rule but below the 5-quarter gate of the other passes. -/
def c1Snow : SnowTable :=
  { cols := ["NRR_PERCENT".data]
  , rows := [mkRow 4 [("NRR_PERCENT".data, some 100)],
             mkRow 3 [("NRR_PERCENT".data, some 110)],
             mkRow 2 [("NRR_PERCENT".data, some 120)],
             mkRow 1 [("NRR_PERCENT".data, some 130)]] }

def c1Peer : PeerTable := { rows := [] }

/-- Number of anomaly findings returned by a first `run_analysis` on a fresh
engine over the C1 fixture. -/
def c1FirstCount : Except Str Nat :=
  match (MetricsEngine.init c1Snow c1Peer).run_analysis with
  | .error e => .error e
  | .ok (_, r) => .ok r.anomalies.length

/-- Number of anomaly findings returned by a second `run_analysis` on the
SAME instance. -/
def c1SecondCount : Except Str Nat :=
  match (MetricsEngine.init c1Snow c1Peer).run_analysis with
  | .error e => .error e
  | .ok (e1, _) =>
    match e1.run_analysis with
    | .error e => .error e
    | .ok (_, r) => .ok r.anomalies.length

/-- C1 witness fixture: an empty table (no findings, so the duplicated lists
are still empty). -/
def c1wSnow : SnowTable := { cols := ["NRR_PERCENT".data], rows := [] }

def c1wPeer : PeerTable := { rows := [] }

/-- C2 witness fixture: product revenue 50 against a trailing average of 100
(deviation −50%). -/
def c2Snow : SnowTable :=
  { cols := ["PRODUCT_REVENUE_M".data]
  , rows := [mkRow 5 [("PRODUCT_REVENUE_M".data, some 50)],
             mkRow 4 [("PRODUCT_REVENUE_M".data, some 100)],
             mkRow 3 [("PRODUCT_REVENUE_M".data, some 100)],
             mkRow 2 [("PRODUCT_REVENUE_M".data, some 100)],
             mkRow 1 [("PRODUCT_REVENUE_M".data, some 100)]] }

/-- C2 boundary fixture: deviation exactly −20.00%. -/
def c2tEdge : SnowTable :=
  { cols := ["PRODUCT_REVENUE_M".data]
  , rows := [mkRow 5 [("PRODUCT_REVENUE_M".data, some 80)],
             mkRow 4 [("PRODUCT_REVENUE_M".data, some 100)],
             mkRow 3 [("PRODUCT_REVENUE_M".data, some 100)],
             mkRow 2 [("PRODUCT_REVENUE_M".data, some 100)],
             mkRow 1 [("PRODUCT_REVENUE_M".data, some 100)]] }

/-- C2 boundary fixture: deviation −20.01%. -/
def c2tMed : SnowTable :=
  { cols := ["PRODUCT_REVENUE_M".data]
  , rows := [mkRow 5 [("PRODUCT_REVENUE_M".data, some (7999/100))],
             mkRow 4 [("PRODUCT_REVENUE_M".data, some 100)],
             mkRow 3 [("PRODUCT_REVENUE_M".data, some 100)],
             mkRow 2 [("PRODUCT_REVENUE_M".data, some 100)],
             mkRow 1 [("PRODUCT_REVENUE_M".data, some 100)]] }

/-- C2 boundary fixture: deviation −30.01%. -/
def c2tHigh : SnowTable :=
  { cols := ["PRODUCT_REVENUE_M".data]
  , rows := [mkRow 5 [("PRODUCT_REVENUE_M".data, some (6999/100))],
             mkRow 4 [("PRODUCT_REVENUE_M".data, some 100)],
             mkRow 3 [("PRODUCT_REVENUE_M".data, some 100)],
             mkRow 2 [("PRODUCT_REVENUE_M".data, some 100)],
             mkRow 1 [("PRODUCT_REVENUE_M".data, some 100)]] }

/-- C3 fixture: NRR 100, 110, 120, 130 most-recent-first. -/
def c3Snow : SnowTable :=
  { cols := ["NRR_PERCENT".data]
  , rows := [mkRow 4 [("NRR_PERCENT".data, some 100)],
             mkRow 3 [("NRR_PERCENT".data, some 110)],
             mkRow 2 [("NRR_PERCENT".data, some 120)],
             mkRow 1 [("NRR_PERCENT".data, some 130)]] }

def c3Peer : PeerTable := { rows := [] }

/-- A trivial bundle over the given tables: every presentation-layer digest
is a constant. -/
def mkBundle (snow : SnowTable) (peer : PeerTable) : DataBundle :=
  { snowflake_metrics := snow
  , peer_financials := peer
  , renderMetricsTable := fun _ _ => []
  , transcriptsFound := fun _ _ _ => false
  , transcriptsBody := fun _ _ _ => []
  , ratingsFound := fun _ => false
  , ratingsBody := fun _ => []
  , newsFound := fun _ => false
  , newsBody := fun _ => []
  , filingsFound := fun _ _ => false
  , filingsBody := fun _ _ => []
  , pressFound := fun _ _ => false
  , pressBody := fun _ _ => []
  , compareFound := fun _ => false
  , compareBody := fun _ _ => []
  , availableCompanies := [] }

def emptySnow : SnowTable := { cols := [], rows := [] }

def emptyPeer : PeerTable := { rows := [] }

/-- C5 witness fixtures: the first response already invokes the sentinel. -/
def c5Bundle : DataBundle := mkBundle emptySnow emptyPeer

def c5Script : Nat → Response := fun _ =>
  [Block.tool_use "t1".data "generate_questions".data [("findings".data, Arg.s "F".data)]]

def c5ScriptD : Nat → Response := fun _ =>
  [Block.tool_use "t1".data "generate_defense".data [("talking_points".data, Arg.s "T".data)]]

def c5Complete : Str → Str → Str := fun _ _ => "Q".data

/-- C6 witness fixtures: every response requests one data tool, never the
sentinel. -/
def c6Bundle : DataBundle := mkBundle emptySnow emptyPeer

def c6Script : Nat → Response := fun _ =>
  [Block.tool_use "t1".data "get_analyst_ratings".data []]

def c6Complete : Str → Str → Str := fun _ _ => []

/-- C7 counterexample fixture: own growth 0.04%, competitor growth 0%; the
unrounded gap 0.04 rounds to a stored gap of 0.0 while `advantage` stays
true. -/
def c7Snow : SnowTable :=
  { cols := ["PRODUCT_REVENUE_M".data]
  , rows := [mkRow 5 [("PRODUCT_REVENUE_M".data, some 10004)],
             mkRow 4 [("PRODUCT_REVENUE_M".data, some 1)],
             mkRow 3 [("PRODUCT_REVENUE_M".data, some 1)],
             mkRow 2 [("PRODUCT_REVENUE_M".data, some 1)],
             mkRow 1 [("PRODUCT_REVENUE_M".data, some 10000)]] }

def mkPeerRow (comp metric : Str) (date : Int) (v : ℚ) : PeerRow :=
  { company_id := comp, metric_name := metric, period_end_date := date, metric_value := v }

def c7Peer : PeerTable :=
  { rows := [mkPeerRow "GOOGL".data "CLOUD_REVENUE".data 5 100,
             mkPeerRow "GOOGL".data "CLOUD_REVENUE".data 4 100,
             mkPeerRow "GOOGL".data "CLOUD_REVENUE".data 3 100,
             mkPeerRow "GOOGL".data "CLOUD_REVENUE".data 2 100,
             mkPeerRow "GOOGL".data "CLOUD_REVENUE".data 1 100] }

/-- C7 example fixture: GOOGL grew 10% (110 vs 100), AMZN grew 25% (125 vs
100); only five periods each. -/
def c7exPeer : PeerTable :=
  { rows := [mkPeerRow "GOOGL".data "CLOUD_REVENUE".data 5 110,
             mkPeerRow "GOOGL".data "CLOUD_REVENUE".data 4 1,
             mkPeerRow "GOOGL".data "CLOUD_REVENUE".data 3 1,
             mkPeerRow "GOOGL".data "CLOUD_REVENUE".data 2 1,
             mkPeerRow "GOOGL".data "CLOUD_REVENUE".data 1 100,
             mkPeerRow "AMZN".data "AWS_REVENUE".data 5 125,
             mkPeerRow "AMZN".data "AWS_REVENUE".data 4 1,
             mkPeerRow "AMZN".data "AWS_REVENUE".data 3 1,
             mkPeerRow "AMZN".data "AWS_REVENUE".data 2 1,
             mkPeerRow "AMZN".data "AWS_REVENUE".data 1 100] }

/-- C8 counterexample fixture: five quarters, the monitored product-revenue
column missing (only NRR present, all values NaN). -/
def c8Snow : SnowTable :=
  { cols := ["NRR_PERCENT".data]
  , rows := [mkRow 5 [("NRR_PERCENT".data, none)],
             mkRow 4 [("NRR_PERCENT".data, none)],
             mkRow 3 [("NRR_PERCENT".data, none)],
             mkRow 2 [("NRR_PERCENT".data, none)],
             mkRow 1 [("NRR_PERCENT".data, none)]] }

def c8Peer : PeerTable := { rows := [] }

/-- C8 witness fixture: product revenue present, current NaN. -/
def c8wSnow : SnowTable :=
  { cols := ["PRODUCT_REVENUE_M".data]
  , rows := [mkRow 5 [("PRODUCT_REVENUE_M".data, none)],
             mkRow 4 [("PRODUCT_REVENUE_M".data, none)],
             mkRow 3 [("PRODUCT_REVENUE_M".data, none)],
             mkRow 2 [("PRODUCT_REVENUE_M".data, none)],
             mkRow 1 [("PRODUCT_REVENUE_M".data, none)]] }

def c8wPeer : PeerTable := { rows := [] }

/-- C9 witness fixture. -/
def c9Bundle : DataBundle := mkBundle emptySnow emptyPeer

/-- C10 witness fixture: three rows stored latest-first. -/
def c10Snow : SnowTable :=
  { cols := ["FISCAL_QUARTER".data, "PRODUCT_REVENUE_M".data]
  , rows := [mkRow 3 [], mkRow 2 [], mkRow 1 []] }

def c10Bundle : DataBundle := mkBundle c10Snow emptyPeer

def c10Input : ToolInput := [("metric".data, Arg.s "all".data), ("quarters".data, Arg.i 2)]

/-- Projection of a run to (metric, threat) pairs of the anomalies plus the
gap list: lets concrete runs be checked without evaluating the numeric and
textual fields of each finding. -/
def runMetricThreats (s : SnowTable) (p : PeerTable) :
    Except Str (List (Str × Str) × List Gap) :=
  match (MetricsEngine.init s p).run_analysis with
  | .error e => .error e
  | .ok (_, r) => .ok (r.anomalies.map fun a => (a.metric, a.threat), r.competitive_gaps)

/-- Projection of the gap list to (gap, advantage) pairs. -/
def gapsProj (r : Except Str (List Gap)) : Except Str (List (ℚ × Bool)) :=
  match r with
  | .error e => .error e
  | .ok gs => .ok (gs.map fun g => (g.gap, g.advantage))

deriving instance DecidableEq for Except

/-! ## Helper lemmas -/

lemma isPre_append (l t : List Char) : l.isPrefixOf (l ++ t) = true := by
  induction l with
  | nil => simp [List.isPrefixOf]
  | cons a as ih => simp [List.isPrefixOf, ih]

lemma isPre_false_of_head_ne {p s : List Char} {c c' : Char}
    (hp : p.head? = some c) (hs : s.head? = some c') (h : c ≠ c') :
    p.isPrefixOf s = false := by
  cases p with
  | nil => simp at hp
  | cons a as =>
    cases s with
    | nil => simp at hs
    | cons b bs =>
      simp at hp hs
      subst hp hs
      simp [List.isPrefixOf, h]

lemma containsSeq_append_self (p s : Str) : containsSeq s (p ++ s) = true := by
  induction p with
  | nil =>
    cases s with
    | nil => rfl
    | cons a as => simp [containsSeq, isPre_append (a :: as) []]
  | cons a p' ih => simp [containsSeq, ih]

lemma length_insertSnowDesc (x : SnowRow) (l : List SnowRow) :
    (insertSnowDesc x l).length = l.length + 1 := by
  induction l with
  | nil => rfl
  | cons y ys ih =>
    unfold insertSnowDesc
    split
    · simp
    · simp [ih]

lemma length_sortSnowDesc (l : List SnowRow) :
    (sortSnowDesc l).length = l.length := by
  unfold sortSnowDesc
  induction l with
  | nil => rfl
  | cons y ys ih => simp [List.foldr_cons, length_insertSnowDesc, ih]

lemma mem_insertSnowDesc {z x : SnowRow} :
    ∀ {l : List SnowRow}, z ∈ insertSnowDesc x l → z = x ∨ z ∈ l := by
  intro l
  induction l with
  | nil =>
    intro h
    simpa [insertSnowDesc] using h
  | cons y ys ih =>
    intro h
    unfold insertSnowDesc at h
    split at h
    · simpa using h
    · rcases List.mem_cons.mp h with h1 | h1
      · exact Or.inr (List.mem_cons.mpr (Or.inl h1))
      · rcases ih h1 with h2 | h2
        · exact Or.inl h2
        · exact Or.inr (List.mem_cons.mpr (Or.inr h2))

lemma pairwise_insertSnowDesc {x : SnowRow} {l : List SnowRow}
    (hl : l.Pairwise fun a c => c.period_end_date ≤ a.period_end_date) :
    (insertSnowDesc x l).Pairwise fun a c => c.period_end_date ≤ a.period_end_date := by
  induction l with
  | nil => simp [insertSnowDesc]
  | cons y ys ih =>
    rw [List.pairwise_cons] at hl
    unfold insertSnowDesc
    split
    · rename_i hyx
      rw [List.pairwise_cons]
      refine ⟨?_, List.pairwise_cons.mpr hl⟩
      intro z hz
      rcases List.mem_cons.mp hz with hz | hz
      · subst hz
        exact hyx
      · exact le_trans (hl.1 z hz) hyx
    · rename_i hyx
      rw [List.pairwise_cons]
      refine ⟨?_, ih hl.2⟩
      intro z hz
      rcases mem_insertSnowDesc hz with hz | hz
      · subst hz
        omega
      · exact hl.1 z hz

lemma pairwise_sortSnowDesc (l : List SnowRow) :
    (sortSnowDesc l).Pairwise fun a c => c.period_end_date ≤ a.period_end_date := by
  unfold sortSnowDesc
  induction l with
  | nil => simp
  | cons y ys ih => exact pairwise_insertSnowDesc ih

lemma detect_gaps_ok (snow : SnowTable) (peer : PeerTable)
    (h : snow.rows.length < 5 ∨ "PRODUCT_REVENUE_M".data ∈ snow.cols) :
    ∃ gs, detect_competitive_gaps snow peer = .ok gs := by
  unfold detect_competitive_gaps
  split
  · exact ⟨[], rfl⟩
  · rename_i h5
    rcases h with h | hcol
    · exact absurd h h5
    · split
      · simp only [getCellE, if_pos hcol, bind, Except.bind]
        split
        · split
          · exact ⟨[], rfl⟩
          · exact ⟨_, rfl⟩
        · exact ⟨[], rfl⟩
      · exact ⟨[], rfl⟩

lemma run_analysis_ok (s : SnowTable) (p : PeerTable)
    (h : s.rows.length < 5 ∨ "PRODUCT_REVENUE_M".data ∈ s.cols) :
    degradeSpec s p := by
  unfold degradeSpec MetricsEngine.run_analysis
  have h' : (MetricsEngine.init s p).snow_df.rows.length < 5 ∨
      "PRODUCT_REVENUE_M".data ∈ (MetricsEngine.init s p).snow_df.cols := by
    rcases h with h | h
    · exact Or.inl (by simpa [MetricsEngine.init, length_sortSnowDesc] using h)
    · exact Or.inr (by simpa [MetricsEngine.init] using h)
  obtain ⟨gs, hg⟩ := detect_gaps_ok (MetricsEngine.init s p).snow_df
    (MetricsEngine.init s p).peer_df h'
  dsimp only
  rw [hg]
  exact ⟨_, rfl⟩

lemma detect_anomalies_short (snow : SnowTable) (h : snow.rows.length < 5) :
    detect_anomalies snow = [] := by
  unfold detect_anomalies
  rw [if_pos h]

lemma anomalyFor_not_col (snow : SnowTable) (current : SnowRow) (quarter col : Str)
    (h : col ∉ snow.cols) : anomalyFor snow current quarter col = none := by
  unfold anomalyFor
  rw [if_neg h]

lemma anomalyFor_nan_current (snow : SnowTable) (current : SnowRow) (quarter col : Str)
    (h : current.cell col = none) : anomalyFor snow current quarter col = none := by
  unfold anomalyFor
  split
  · rw [h]
  · rfl

lemma anomalyFor_nan_avg (snow : SnowTable) (current : SnowRow) (quarter col : Str)
    (h : pandasMean (((snow.rows.drop 1).take 4).map fun r => r.cell col) = none) :
    anomalyFor snow current quarter col = none := by
  unfold anomalyFor
  split
  · rw [h]
    dsimp only
    cases current.cell col <;> rfl
  · rfl

lemma anomalyFor_zero_avg (snow : SnowTable) (current : SnowRow) (quarter col : Str)
    (h : pandasMean (((snow.rows.drop 1).take 4).map fun r => r.cell col) = some 0) :
    anomalyFor snow current quarter col = none := by
  unfold anomalyFor
  split
  · rw [h]
    dsimp only
    cases current.cell col with
    | none => rfl
    | some cv =>
      dsimp only
      rw [if_pos rfl]
  · rfl

/-- C8 (amended).  The generic deviation rule contributes nothing below 5
quarters of history; the generic pass skips missing monitored columns,
missing values and zero averages rather than raising; and the engine as a
whole raises no exception whenever the table has fewer than 5 rows OR still
contains the product-revenue column — the competitive-gap pass, however,
reads `PRODUCT_REVENUE_M` unguarded, so (see `c8_counterexample`) a table of
5 or more rows lacking that monitored column makes `run_analysis` raise
`KeyError`, contrary to the claim. -/
theorem c8_degrade_amended :
    (∀ snow : SnowTable, snow.rows.length < 5 → detect_anomalies snow = []) ∧
    (∀ (s : SnowTable) (p : PeerTable),
      s.rows.length < 5 ∨ "PRODUCT_REVENUE_M".data ∈ s.cols → degradeSpec s p) ∧
    (∀ (snow : SnowTable) (current : SnowRow) (quarter col : Str),
      col ∉ snow.cols → anomalyFor snow current quarter col = none) ∧
    (∀ (snow : SnowTable) (current : SnowRow) (quarter col : Str),
      current.cell col = none → anomalyFor snow current quarter col = none) ∧
    (∀ (snow : SnowTable) (current : SnowRow) (quarter col : Str),
      pandasMean (((snow.rows.drop 1).take 4).map fun r => r.cell col) = none →
      anomalyFor snow current quarter col = none) ∧
    (∀ (snow : SnowTable) (current : SnowRow) (quarter col : Str),
      pandasMean (((snow.rows.drop 1).take 4).map fun r => r.cell col) = some 0 →
      anomalyFor snow current quarter col = none) :=
  ⟨detect_anomalies_short, fun s p h => run_analysis_ok s p h,
   anomalyFor_not_col, anomalyFor_nan_current, anomalyFor_nan_avg, anomalyFor_zero_avg⟩

/-- C8 counterexample: five quarters of history without the monitored
product-revenue column — `run_analysis` raises `KeyError` instead of
degrading, refuting the claim that the engine never raises on missing
monitored columns. -/
theorem c8_counterexample :
    (MetricsEngine.init c8Snow c8Peer).run_analysis =
      .error "KeyError: PRODUCT_REVENUE_M".data := by decide

/-- C8 witness: with the product-revenue column present (values may be
missing), the engine completes without an exception. -/
theorem c8_witness : degradeSpec c8wSnow c8wPeer :=
  c8_degrade_amended.2.1 c8wSnow c8wPeer (Or.inr (by decide))

/-- C9: `execute_tool` on a name outside the registry's catalog returns the
non-empty diagnostic `Unknown tool: <name>` (which names the tool), raises
no exception, and — being a pure read of the bundle — leaves it unchanged. -/
theorem c9_unknown_tool (b : DataBundle) (tool_name : Str) (tool_input : ToolInput)
    (h : tool_name ∉ toolCatalogNames) : unknownToolSpec b tool_name tool_input := by
  simp only [toolCatalogNames, List.mem_cons, List.not_mem_nil, or_false, not_or] at h
  obtain ⟨h1, h2, h3, h4, h5, h6, h7, h8, h9⟩ := h
  refine ⟨?_, ?_, containsSeq_append_self _ _⟩
  · unfold DataTools.execute_tool
    rw [if_neg h1, if_neg h2, if_neg h3, if_neg h4, if_neg h5, if_neg h6, if_neg h7,
      if_neg h8, if_neg h9]
  · intro hnil
    exact absurd (List.append_eq_nil.mp hnil).1 (by decide)

/-- C9 witness at a concrete unrecognized name. -/
theorem c9_witness : unknownToolSpec c9Bundle "frobnicate".data [] :=
  c9_unknown_tool c9Bundle "frobnicate".data [] (by decide)

lemma anomaly_rule_main (snow : SnowTable) (current : SnowRow) (quarter col : Str)
    (cv ma : ℚ) (hcol : col ∈ snow.cols) (hcv : current.cell col = some cv)
    (hma : pandasMean (((snow.rows.drop 1).take 4).map fun r => r.cell col) = some ma)
    (hma0 : ma ≠ 0) : anomalyRuleSpec snow current quarter col cv ma := by
  have hres : anomalyFor snow current quarter col =
      (if (cv - ma) / |ma| < -(20/100 : ℚ) then
        some { metric := metricTitle col, current := cv, moving_avg := pyRound1 ma
             , deviation_pct := pyRound1 ((cv - ma) / |ma| * 100)
             , threat := if (cv - ma) / |ma| < -(30/100 : ℚ) then "HIGH".data else "MEDIUM".data
             , description := metricTitle col ++ (" is ".data ++
                 (intChars (roundHalfToEven (abs ((cv - ma) / |ma|) * 100)) ++ "% below 4Q average".data))
             , quarter := quarter, source_bucket := 1 }
       else none) := by
    unfold anomalyFor
    rw [if_pos hcol]
    dsimp only
    rw [hcv, hma]
    dsimp only
    rw [if_neg hma0]
  refine ⟨?_, ?_, ?_, ?_, ?_⟩
  · rw [hres]
    by_cases hd : (cv - ma) / |ma| < -(20/100 : ℚ)
    · simp [hd]
    · simp [hd]
  · intro a ha
    rw [hres] at ha
    by_cases hd : (cv - ma) / |ma| < -(20/100 : ℚ)
    · rw [if_pos hd] at ha
      injection ha with ha
      subst ha
      exact ⟨rfl, rfl⟩
    · rw [if_neg hd] at ha
      cases ha
  · intro hd
    rw [hres, if_neg]
    rw [hd]
    exact lt_irrefl _
  · intro hd
    rw [hres, if_neg]
    intro hlt
    have h20 : (0:ℚ) < 20/100 := by norm_num
    linarith
  · intro h5 hhead hcolM hq a ha
    obtain ⟨tl, hrows⟩ : ∃ tl, snow.rows = current :: tl := by
      cases hr : snow.rows with
      | nil =>
        rw [hr] at hhead
        cases hhead
      | cons c t =>
        rw [hr] at hhead
        simp only [List.head?_cons, Option.some.injEq] at hhead
        subst hhead
        exact ⟨t, rfl⟩
    have h5' : ¬ (current :: tl).length < 5 := by
      rw [← hrows]
      omega
    unfold detect_anomalies
    rw [hrows, if_neg h5']
    dsimp only
    exact List.mem_filterMap.mpr ⟨col, hcolM, by rw [← hq]; exact ha⟩

/-- C2: the generic deviation rule fires exactly on deviations strictly below
−20%, with HIGH threat exactly below −30% and MEDIUM otherwise; deviation
exactly −20.00% and all non-negative deviations are never flagged.  The three
closing conjuncts check the spec's boundary cases −20.00% / −20.01% /
−30.01% on concrete tables. -/
theorem c2_deviation_rule :
    (∀ (snow : SnowTable) (current : SnowRow) (quarter col : Str) (cv ma : ℚ),
      col ∈ snow.cols → current.cell col = some cv →
      pandasMean (((snow.rows.drop 1).take 4).map fun r => r.cell col) = some ma →
      ma ≠ 0 → anomalyRuleSpec snow current quarter col cv ma) ∧
    anomalyFor c2tEdge (mkRow 5 [("PRODUCT_REVENUE_M".data, some 80)]) []
      "PRODUCT_REVENUE_M".data = none ∧
    (∃ a, anomalyFor c2tMed (mkRow 5 [("PRODUCT_REVENUE_M".data, some (7999/100))]) []
      "PRODUCT_REVENUE_M".data = some a ∧ a.threat = "MEDIUM".data) ∧
    (∃ a, anomalyFor c2tHigh (mkRow 5 [("PRODUCT_REVENUE_M".data, some (6999/100))]) []
      "PRODUCT_REVENUE_M".data = some a ∧ a.threat = "HIGH".data) := by
  have hmean : ∀ t : SnowTable, t.rows.drop 1 =
      [mkRow 4 [("PRODUCT_REVENUE_M".data, some 100)],
       mkRow 3 [("PRODUCT_REVENUE_M".data, some 100)],
       mkRow 2 [("PRODUCT_REVENUE_M".data, some 100)],
       mkRow 1 [("PRODUCT_REVENUE_M".data, some 100)]] →
      pandasMean (((t.rows.drop 1).take 4).map fun r =>
        r.cell "PRODUCT_REVENUE_M".data) = some 100 := by
    intro t ht
    rw [ht]
    have : ([mkRow 4 [("PRODUCT_REVENUE_M".data, some 100)],
       mkRow 3 [("PRODUCT_REVENUE_M".data, some 100)],
       mkRow 2 [("PRODUCT_REVENUE_M".data, some 100)],
       mkRow 1 [("PRODUCT_REVENUE_M".data, some 100)]].take 4).map (fun r =>
        r.cell "PRODUCT_REVENUE_M".data) = [some 100, some 100, some 100, some 100] := by
      decide
    rw [this]
    norm_num [pandasMean, List.filterMap_cons, List.filterMap_nil]
  refine ⟨fun snow current quarter col cv ma hcol hcv hma hma0 =>
    anomaly_rule_main snow current quarter col cv ma hcol hcv hma hma0, ?_, ?_, ?_⟩
  · exact (anomaly_rule_main c2tEdge (mkRow 5 [("PRODUCT_REVENUE_M".data, some 80)]) []
      "PRODUCT_REVENUE_M".data 80 100 (by decide) (by decide)
      (hmean c2tEdge (by decide)) (by norm_num)).2.2.1 (by norm_num)
  · have hspec := anomaly_rule_main c2tMed
      (mkRow 5 [("PRODUCT_REVENUE_M".data, some (7999/100))]) []
      "PRODUCT_REVENUE_M".data (7999/100) 100 (by decide) rfl
      (hmean c2tMed (by decide)) (by norm_num)
    have h1 : (anomalyFor c2tMed (mkRow 5 [("PRODUCT_REVENUE_M".data, some (7999/100))]) []
        "PRODUCT_REVENUE_M".data).isSome := hspec.1.mpr (by norm_num)
    obtain ⟨a, ha⟩ := Option.isSome_iff_exists.mp h1
    refine ⟨a, ha, ?_⟩
    have ht := (hspec.2.1 a ha).1
    rw [if_neg (by norm_num)] at ht
    exact ht
  · have hspec := anomaly_rule_main c2tHigh
      (mkRow 5 [("PRODUCT_REVENUE_M".data, some (6999/100))]) []
      "PRODUCT_REVENUE_M".data (6999/100) 100 (by decide) rfl
      (hmean c2tHigh (by decide)) (by norm_num)
    have h1 : (anomalyFor c2tHigh (mkRow 5 [("PRODUCT_REVENUE_M".data, some (6999/100))]) []
        "PRODUCT_REVENUE_M".data).isSome := hspec.1.mpr (by norm_num)
    obtain ⟨a, ha⟩ := Option.isSome_iff_exists.mp h1
    refine ⟨a, ha, ?_⟩
    have ht := (hspec.2.1 a ha).1
    rw [if_pos (by norm_num)] at ht
    exact ht

/-- C2 witness: product revenue 50 against a trailing average of 100
(deviation −50%) on a 5-quarter table. -/
theorem c2_deviation_rule_witness :
    anomalyRuleSpec c2Snow (mkRow 5 [("PRODUCT_REVENUE_M".data, some 50)]) []
      "PRODUCT_REVENUE_M".data 50 100 :=
  c2_deviation_rule.1 c2Snow (mkRow 5 [("PRODUCT_REVENUE_M".data, some 50)]) []
    "PRODUCT_REVENUE_M".data 50 100 (by decide) (by decide)
    (by
      have hlist : ((c2Snow.rows.drop 1).take 4).map (fun r =>
          r.cell "PRODUCT_REVENUE_M".data) = [some 100, some 100, some 100, some 100] := by
        decide
      rw [hlist]
      norm_num [pandasMean, List.filterMap_cons, List.filterMap_nil])
    (by norm_num)

lemma nrr_rule_main (snow : SnowTable) (v0 v1 v2 v3 : ℚ)
    (hcol : "NRR_PERCENT".data ∈ snow.cols)
    (hvals : (snow.rows.take 4).map (fun r => r.cell "NRR_PERCENT".data) =
      [some v0, some v1, some v2, some v3]) :
    nrrRuleSpec snow v0 v1 v2 v3 := by
  have hlen : 4 ≤ snow.rows.length := by
    have hl := congrArg List.length hvals
    simp only [List.length_map, List.length_take, List.length_cons, List.length_nil] at hl
    omega
  obtain ⟨r0, tl, hrows⟩ : ∃ r0 tl, snow.rows = r0 :: tl := by
    cases hr : snow.rows with
    | nil =>
      rw [hr] at hlen
      simp at hlen
    | cons a t => exact ⟨a, t, rfl⟩
  have hres : detect_nrr_decline snow =
      if v0 < v1 ∧ v1 < v2 ∧ v2 < v3 then
        [{ metric := "Net Revenue Retention".data
         , current := v0
         , moving_avg := v3
         , deviation_pct := pyRound1 ((v0 - v3) / v3 * 100)
         , threat := "HIGH".data
         , description := "NRR declining for 4 quarters: ".data ++
             (fmtQ v3 ++ ("% -> ".data ++ (fmtQ v0 ++ "%".data)))
         , quarter := quarterLabel r0
         , source_bucket := 1 }]
      else [] := by
    unfold detect_nrr_decline
    rw [if_pos ⟨hcol, hlen⟩, hvals]
    dsimp only
    rw [hrows]
  refine ⟨?_, ?_, ?_⟩
  · rw [hres]
    by_cases hc : v0 < v1 ∧ v1 < v2 ∧ v2 < v3
    · simp [hc]
    · simp [hc]
  · intro a ha
    rw [hres] at ha
    by_cases hc : v0 < v1 ∧ v1 < v2 ∧ v2 < v3
    · rw [if_pos hc] at ha
      simp only [List.mem_singleton] at ha
      subst ha
      exact ⟨rfl, rfl⟩
    · rw [if_neg hc] at ha
      cases ha
  · rw [hres]
    by_cases hc : v0 < v1 ∧ v1 < v2 ∧ v2 < v3
    · rw [if_pos hc]
      exact Or.inr ⟨_, rfl⟩
    · rw [if_neg hc]
      exact Or.inl rfl

/-- C3: the consecutive-decline rule fires, with a single HIGH Net Revenue
Retention finding, exactly when the four most recent NRR values are strictly
increasing backwards in time; and the whole analysis over the fixture
`100, 110, 120, 130` yields exactly one HIGH NRR finding and nothing else. -/
theorem c3_nrr_decline_rule :
    (∀ (snow : SnowTable) (v0 v1 v2 v3 : ℚ),
      "NRR_PERCENT".data ∈ snow.cols →
      (snow.rows.take 4).map (fun r => r.cell "NRR_PERCENT".data) =
        [some v0, some v1, some v2, some v3] →
      nrrRuleSpec snow v0 v1 v2 v3) ∧
    runMetricThreats c3Snow c3Peer =
      .ok ([("Net Revenue Retention".data, "HIGH".data)], []) :=
  ⟨fun snow v0 v1 v2 v3 hcol hvals => nrr_rule_main snow v0 v1 v2 v3 hcol hvals,
   by decide⟩

/-- C3 witness: the rule applied to the fixture table. -/
theorem c3_nrr_decline_rule_witness : nrrRuleSpec c3Snow 100 110 120 130 :=
  c3_nrr_decline_rule.1 c3Snow 100 110 120 130 (by decide) (by decide)

/-- C1 (amended): the engine's findings are a pure function of its inputs —
two engines constructed from equal tables return equal analysis results (the
fresh-instance half of the claim) — but reusing ONE instance is not
idempotent: because `run_analysis` appends to `self.anomalies` and
`self.competitive_gaps`, a second call on the same instance returns each
finding list concatenated with itself (`c1_counterexample` shows the claim's
same-instance half false on a table with one finding). -/
theorem c1_rerun_accumulates :
    (∀ (s₁ s₂ : SnowTable) (p₁ p₂ : PeerTable), s₁ = s₂ → p₁ = p₂ →
      (MetricsEngine.init s₁ p₁).run_analysis = (MetricsEngine.init s₂ p₂).run_analysis) ∧
    (∀ (s : SnowTable) (p : PeerTable) (e1 : MetricsEngine) (r1 : AnalysisResult),
      (MetricsEngine.init s p).run_analysis = .ok (e1, r1) → rerunSpec e1 r1) := by
  constructor
  · intro s₁ s₂ p₁ p₂ hs hp
    rw [hs, hp]
  · intro s p e1 r1 h
    unfold MetricsEngine.run_analysis at h
    dsimp only at h
    cases hg : detect_competitive_gaps (MetricsEngine.init s p).snow_df
        (MetricsEngine.init s p).peer_df with
    | error e =>
      rw [hg] at h
      cases h
    | ok gaps =>
      rw [hg] at h
      injection h with h
      injection h with h1 h2
      subst h1 h2
      unfold rerunSpec MetricsEngine.run_analysis
      dsimp only
      rw [hg]
      simp [List.append_assoc, MetricsEngine.init]

/-- C1 counterexample: on a table with one finding, the second `run_analysis`
on the same instance reports two findings where the first reported one — the
finding lists of the two runs are not identical. -/
theorem c1_counterexample : c1SecondCount ≠ c1FirstCount := by decide

/-- C1 witness for the same-instance accumulation law, at a table with no
findings. -/
theorem c1_rerun_witness :
    rerunSpec { snow_df := { cols := ["NRR_PERCENT".data], rows := [] }
              , peer_df := { rows := [] }
              , anomalies := [], competitive_gaps := [] }
              { anomalies := [], competitive_gaps := [] } :=
  c1_rerun_accumulates.2 c1wSnow c1wPeer
    { snow_df := { cols := ["NRR_PERCENT".data], rows := [] }
    , peer_df := { rows := [] }
    , anomalies := [], competitive_gaps := [] }
    { anomalies := [], competitive_gaps := [] }
    (by decide)

lemma gapFor_produced (peer : PeerTable) (snow_growth : ℚ) (comp : Str × Str)
    (c0 c1 c2 c3 c4 : PeerRow) (rest : List PeerRow)
    (hsort : sortPeerDesc (peer.rows.filter fun r =>
      r.company_id == comp.1 && r.metric_name == comp.2) =
        c0 :: c1 :: c2 :: c3 :: c4 :: rest)
    (hy : c4.metric_value ≠ 0) :
    gapProducedSpec peer snow_growth comp c0 c4 := by
  unfold gapProducedSpec
  dsimp only
  unfold gapFor
  rw [hsort]
  dsimp only
  rw [if_neg (by simp), if_neg hy]
  refine ⟨_, rfl, rfl, rfl, rfl, rfl, ?_⟩
  simp only [decide_eq_true_eq]

lemma gapFor_short (peer : PeerTable) (snow_growth : ℚ) (comp : Str × Str)
    (h : (sortPeerDesc (peer.rows.filter fun r =>
      r.company_id == comp.1 && r.metric_name == comp.2)).length < 5) :
    gapFor peer snow_growth comp = none := by
  unfold gapFor
  rw [if_pos h]

lemma detect_gaps_formula (snow : SnowTable) (peer : PeerTable)
    (r0 r1 r2 r3 r4 : SnowRow) (rest : List SnowRow) (sc sy : ℚ)
    (hrows : snow.rows = r0 :: r1 :: r2 :: r3 :: r4 :: rest)
    (hcol : "PRODUCT_REVENUE_M".data ∈ snow.cols)
    (h0 : r0.cell "PRODUCT_REVENUE_M".data = some sc)
    (h4 : r4.cell "PRODUCT_REVENUE_M".data = some sy)
    (hsy : sy ≠ 0) :
    detect_competitive_gaps snow peer =
      .ok (COMPETITORS.filterMap (gapFor peer ((sc - sy) / sy * 100))) := by
  unfold detect_competitive_gaps
  rw [hrows, if_neg (by simp)]
  dsimp only
  simp only [getCellE, if_pos hcol, bind, Except.bind]
  rw [h0, h4]
  dsimp only
  rw [if_neg hsy]

/-- C7 (amended): for a competitor with at least 5 periods of history and a
non-zero prior-year value, the produced entry stores the competitor id, the
one-decimal ROUNDING of the growth figures and of their difference as `gap`,
while `advantage` is computed from the UNROUNDED difference (`true` iff own
growth strictly exceeds competitor growth); a competitor with fewer than 5
periods is silently omitted (`none`, and the pass still returns `.ok`); with
own growth 20% the GOOGL example (competitor growth 10%) yields gap 10.0 and
advantage true, and the AMZN example (growth 25%) yields gap −5.0 and
advantage false. -/
theorem c7_gap_rule_amended :
    (∀ (peer : PeerTable) (snow_growth : ℚ) (comp : Str × Str)
       (c0 c1 c2 c3 c4 : PeerRow) (rest : List PeerRow),
      sortPeerDesc (peer.rows.filter fun r =>
        r.company_id == comp.1 && r.metric_name == comp.2) =
          c0 :: c1 :: c2 :: c3 :: c4 :: rest →
      c4.metric_value ≠ 0 → gapProducedSpec peer snow_growth comp c0 c4) ∧
    (∀ (peer : PeerTable) (snow_growth : ℚ) (comp : Str × Str),
      (sortPeerDesc (peer.rows.filter fun r =>
        r.company_id == comp.1 && r.metric_name == comp.2)).length < 5 →
      gapFor peer snow_growth comp = none) ∧
    (∀ (snow : SnowTable) (peer : PeerTable) (r0 r1 r2 r3 r4 : SnowRow)
       (rest : List SnowRow) (sc sy : ℚ),
      snow.rows = r0 :: r1 :: r2 :: r3 :: r4 :: rest →
      "PRODUCT_REVENUE_M".data ∈ snow.cols →
      r0.cell "PRODUCT_REVENUE_M".data = some sc →
      r4.cell "PRODUCT_REVENUE_M".data = some sy → sy ≠ 0 →
      detect_competitive_gaps snow peer =
        .ok (COMPETITORS.filterMap (gapFor peer ((sc - sy) / sy * 100)))) ∧
    (∃ g, gapFor c7exPeer 20 ("GOOGL".data, "CLOUD_REVENUE".data) = some g ∧
      g.gap = 10 ∧ g.advantage = true) ∧
    (∃ g, gapFor c7exPeer 20 ("AMZN".data, "AWS_REVENUE".data) = some g ∧
      g.gap = -5 ∧ g.advantage = false) := by
  refine ⟨gapFor_produced, gapFor_short, detect_gaps_formula, ?_, ?_⟩
  · obtain ⟨g, hg, _, _, _, hgap, hadv⟩ :=
      gapFor_produced c7exPeer 20 ("GOOGL".data, "CLOUD_REVENUE".data)
        (mkPeerRow "GOOGL".data "CLOUD_REVENUE".data 5 110)
        (mkPeerRow "GOOGL".data "CLOUD_REVENUE".data 4 1)
        (mkPeerRow "GOOGL".data "CLOUD_REVENUE".data 3 1)
        (mkPeerRow "GOOGL".data "CLOUD_REVENUE".data 2 1)
        (mkPeerRow "GOOGL".data "CLOUD_REVENUE".data 1 100) [] (by decide) (by decide)
    refine ⟨g, hg, ?_, hadv.mpr (by norm_num [mkPeerRow])⟩
    rw [hgap]
    norm_num [mkPeerRow, pyRound1, roundHalfToEven]
  · obtain ⟨g, hg, _, _, _, hgap, hadv⟩ :=
      gapFor_produced c7exPeer 20 ("AMZN".data, "AWS_REVENUE".data)
        (mkPeerRow "AMZN".data "AWS_REVENUE".data 5 125)
        (mkPeerRow "AMZN".data "AWS_REVENUE".data 4 1)
        (mkPeerRow "AMZN".data "AWS_REVENUE".data 3 1)
        (mkPeerRow "AMZN".data "AWS_REVENUE".data 2 1)
        (mkPeerRow "AMZN".data "AWS_REVENUE".data 1 100) [] (by decide) (by decide)
    refine ⟨g, hg, ?_, ?_⟩
    · rw [hgap]
      norm_num [mkPeerRow, pyRound1, roundHalfToEven]
    · cases hb : g.advantage with
      | false => rfl
      | true =>
        rw [hb] at hadv
        have := hadv.mp rfl
        norm_num [mkPeerRow] at this

/-- C7 counterexample: own growth 0.04% against competitor growth 0% — the
claim predicts a stored gap of 0.04 (own minus competitor growth), but the
entry stores the rounded gap 0.0 while `advantage` is still true; the stored
gap does not equal own growth minus competitor growth. -/
theorem c7_gap_counterexample :
    gapsProj (detect_competitive_gaps c7Snow c7Peer) = .ok [((0 : ℚ), true)] ∧
    ((10004 - 10000 : ℚ) / 10000 * 100 - (100 - 100 : ℚ) / 100 * 100 ≠ 0) := by
  constructor
  · unfold gapsProj
    rw [detect_gaps_formula c7Snow c7Peer
      (mkRow 5 [("PRODUCT_REVENUE_M".data, some 10004)])
      (mkRow 4 [("PRODUCT_REVENUE_M".data, some 1)])
      (mkRow 3 [("PRODUCT_REVENUE_M".data, some 1)])
      (mkRow 2 [("PRODUCT_REVENUE_M".data, some 1)])
      (mkRow 1 [("PRODUCT_REVENUE_M".data, some 10000)]) [] 10004 10000
      rfl (by decide) rfl rfl (by norm_num)]
    obtain ⟨g, hg, _, _, _, hgap, hadv⟩ :=
      gapFor_produced c7Peer ((10004 - 10000 : ℚ) / 10000 * 100)
        ("GOOGL".data, "CLOUD_REVENUE".data)
        (mkPeerRow "GOOGL".data "CLOUD_REVENUE".data 5 100)
        (mkPeerRow "GOOGL".data "CLOUD_REVENUE".data 4 100)
        (mkPeerRow "GOOGL".data "CLOUD_REVENUE".data 3 100)
        (mkPeerRow "GOOGL".data "CLOUD_REVENUE".data 2 100)
        (mkPeerRow "GOOGL".data "CLOUD_REVENUE".data 1 100) [] (by decide) (by decide)
    have hA : gapFor c7Peer ((10004 - 10000 : ℚ) / 10000 * 100)
        ("AMZN".data, "AWS_REVENUE".data) = none :=
      gapFor_short c7Peer _ _ (by decide)
    simp only [COMPETITORS, List.filterMap_cons, List.filterMap_nil, hg, hA,
      List.map_cons, List.map_nil]
    have hgap0 : g.gap = 0 := by
      rw [hgap]
      norm_num [mkPeerRow, pyRound1, roundHalfToEven]
    have hadv1 : g.advantage = true := hadv.mpr (by norm_num [mkPeerRow])
    rw [hgap0, hadv1]
  · norm_num

/-- C7 witness for the general rule, at the GOOGL example table. -/
theorem c7_gap_rule_witness :
    gapProducedSpec c7exPeer 20 ("GOOGL".data, "CLOUD_REVENUE".data)
      (mkPeerRow "GOOGL".data "CLOUD_REVENUE".data 5 110)
      (mkPeerRow "GOOGL".data "CLOUD_REVENUE".data 1 100) :=
  c7_gap_rule_amended.1 c7exPeer 20 ("GOOGL".data, "CLOUD_REVENUE".data)
    (mkPeerRow "GOOGL".data "CLOUD_REVENUE".data 5 110)
    (mkPeerRow "GOOGL".data "CLOUD_REVENUE".data 4 1)
    (mkPeerRow "GOOGL".data "CLOUD_REVENUE".data 3 1)
    (mkPeerRow "GOOGL".data "CLOUD_REVENUE".data 2 1)
    (mkPeerRow "GOOGL".data "CLOUD_REVENUE".data 1 100) [] (by decide) (by decide)

lemma head_mem_take {α : Type} {l : List α} {a : α} {m : Nat}
    (h : l.head? = some a) (hm : 1 ≤ m) : a ∈ l.take m := by
  cases l with
  | nil => cases h
  | cons c tl =>
    simp only [List.head?_cons, Option.some.injEq] at h
    subst h
    cases m with
    | zero => omega
    | succ m2 => simp [List.take_succ_cons]

lemma tail_digest_main (b : DataBundle) (tool_input : ToolInput) (metric : Str) (n : Nat)
    (hq : tool_input.getInt "quarters".data 4 = Int.ofNat n)
    (hm : tool_input.getStr "metric".data "all".data = metric)
    (hn : n < b.snowflake_metrics.rows.length) :
    tailDigestSpec b tool_input metric n := by
  refine ⟨?_, ?_, ?_⟩
  · unfold DataTools.execute_tool
    rw [if_pos rfl]
    unfold DataTools.get_snowflake_metrics tailRows
    rw [hq, hm]
    dsimp only
    split
    · rfl
    · rename_i hcontra
      exact absurd (Int.ofNat_nonneg n) hcontra
  · simp only [List.length_drop]
    omega
  · intro hpair r0 hhead
    have hsplit : b.snowflake_metrics.rows.take (b.snowflake_metrics.rows.length - n) ++
        b.snowflake_metrics.rows.drop (b.snowflake_metrics.rows.length - n) =
          b.snowflake_metrics.rows :=
      List.take_append_drop _ _
    have hp2 := List.pairwise_append.mp
      (show (b.snowflake_metrics.rows.take (b.snowflake_metrics.rows.length - n) ++
          b.snowflake_metrics.rows.drop (b.snowflake_metrics.rows.length - n)).Pairwise
            (fun a c => c.period_end_date < a.period_end_date) from by
        rw [hsplit]
        exact hpair)
    have hr0take : r0 ∈ b.snowflake_metrics.rows.take (b.snowflake_metrics.rows.length - n) :=
      head_mem_take hhead (by omega)
    refine ⟨fun r hr => hp2.2.2 r0 hr0take r hr, ?_,
      fun r' hr' r hr => hp2.2.2 r' hr' r hr⟩
    intro hmem
    exact absurd (hp2.2.2 r0 hr0take r0 hmem) (lt_irrefl _)

/-- C10: executing `get_snowflake_metrics` with `quarters = n` on a table of
more than `n` rows digests exactly the LAST `n` stored rows (`df.tail`); the
loader stores the table sorted latest-first (final conjunct), under which
order the digested rows are the `n` oldest quarters, every one strictly older
than the most recent row — which therefore never appears in the result,
despite the declared parameter meaning "number of recent quarters". -/
theorem c10_tail_digest :
    (∀ (b : DataBundle) (tool_input : ToolInput) (metric : Str) (n : Nat),
      tool_input.getInt "quarters".data 4 = Int.ofNat n →
      tool_input.getStr "metric".data "all".data = metric →
      n < b.snowflake_metrics.rows.length →
      tailDigestSpec b tool_input metric n) ∧
    (∀ rows : List SnowRow,
      (sortSnowDesc rows).Pairwise fun a c => c.period_end_date ≤ a.period_end_date) :=
  ⟨tail_digest_main, pairwise_sortSnowDesc⟩

/-- C10 witness: a three-row table digested with `quarters = 2`. -/
theorem c10_tail_digest_witness : tailDigestSpec c10Bundle c10Input "all".data 2 :=
  c10_tail_digest.1 c10Bundle c10Input "all".data 2 (by decide) (by decide) (by decide)

lemma splitOnChar_ne_nil (ch : Char) (l : Str) : splitOnChar ch l ≠ [] := by
  induction l with
  | nil => simp [splitOnChar]
  | cons a as ih =>
    unfold splitOnChar
    dsimp only
    split
    · simp
    · split
      · simp
      · simp

lemma dropWhile_head_neg {p : Char → Bool} :
    ∀ {l : Str} {c : Char} {cs : Str}, l.dropWhile p = c :: cs → p c = false := by
  intro l
  induction l with
  | nil =>
    intro c cs h
    cases h
  | cons a as ih =>
    intro c cs h
    rw [List.dropWhile_cons] at h
    by_cases hp : p a
    · rw [if_pos hp] at h
      exact ih h
    · rw [if_neg hp] at h
      injection h with h1 _
      subst h1
      exact Bool.of_not_eq_true hp

lemma pyStrip_prefix_dropWhile (block : Str) :
    pyStrip block <+: block.dropWhile isPySpace := by
  unfold pyStrip
  have hsuf : ((block.dropWhile isPySpace).reverse.dropWhile isPySpace) <:+
      (block.dropWhile isPySpace).reverse := List.dropWhile_suffix isPySpace
  obtain ⟨s, hs⟩ := hsuf
  exact ⟨s.reverse, by rw [← List.reverse_append, hs, List.reverse_reverse]⟩

lemma pyStrip_head_not_space {block : Str} {c : Char} {cs : Str}
    (h : pyStrip block = c :: cs) : isPySpace c = false := by
  obtain ⟨u, hu⟩ := pyStrip_prefix_dropWhile block
  rw [h] at hu
  exact dropWhile_head_neg hu.symm

lemma pyStrip_cons_ne_nil {c : Char} {cs : Str} (hc : isPySpace c = false) :
    pyStrip (c :: cs) ≠ [] := by
  unfold pyStrip
  intro h
  rw [List.reverse_eq_nil_iff, List.dropWhile_eq_nil_iff] at h
  have hmem : c ∈ ((c :: cs).dropWhile isPySpace).reverse := by
    rw [List.dropWhile_cons, if_neg (by simp [hc])]
    simp
  have := h c hmem
  rw [hc] at this
  cases this

lemma foldl_parseLine_question (lines : List Str) :
    ∀ q : Question, (lines.foldl parseLine q).question = q.question := by
  induction lines with
  | nil => intro q; rfl
  | cons line rest ih =>
    intro q
    rw [List.foldl_cons, ih]
    unfold parseLine
    dsimp only
    split <;> split <;> split <;> rfl

lemma foldl_parseLine_bucket (lines : List Str) :
    ∀ q : Question,
      (∀ bk, q.bucket = some bk → q.source = some (bucketLabel bk)) →
      ∀ bk, (lines.foldl parseLine q).bucket = some bk →
        (lines.foldl parseLine q).source = some (bucketLabel bk) := by
  induction lines with
  | nil =>
    intro q hq bk
    exact hq bk
  | cons line rest ih =>
    intro q hq bk
    rw [List.foldl_cons]
    refine ih (parseLine q line) ?_ bk
    intro bk2 hbk2
    unfold parseLine at hbk2 ⊢
    dsimp only at hbk2 ⊢
    split at hbk2 <;> split at hbk2 <;> split at hbk2 <;>
      simp_all

lemma parseBlock_eq_none_iff (block : Str) : parseBlock block = none ↔ pyStrip block = [] := by
  constructor
  · intro h
    by_contra hne
    obtain ⟨c, cs, hcc⟩ : ∃ c cs, pyStrip block = c :: cs := by
      cases hl : pyStrip block with
      | nil => exact absurd hl hne
      | cons c cs => exact ⟨c, cs, rfl⟩
    have hcsp := pyStrip_head_not_space hcc
    unfold parseBlock at h
    rw [hcc] at h
    have hline : ∃ h1 t1, splitOnChar '\n' (c :: cs) = (c :: h1) :: t1 := by
      unfold splitOnChar
      dsimp only
      rw [if_neg (by intro hceq; rw [hceq] at hcsp; cases hcsp)]
      cases hsp : splitOnChar '\n' cs with
      | nil => exact absurd hsp (splitOnChar_ne_nil '\n' cs)
      | cons h1 t1 => exact ⟨h1, t1, rfl⟩
    obtain ⟨h1, t1, hline⟩ := hline
    rw [hline] at h
    dsimp only [List.headD_cons] at h
    rw [if_neg (by
      have hne2 : pyStrip (c :: h1) ≠ [] := pyStrip_cons_ne_nil hcsp
      simpa [List.isEmpty_iff] using hne2)] at h
    cases h
  · intro h
    unfold parseBlock
    rw [h]
    rfl

lemma parseBlock_question {block : Str} {q : Question} (h : parseBlock block = some q) :
    q.question = pyStrip ((splitOnChar '\n' (pyStrip block)).headD []) ∧ q.question ≠ [] := by
  unfold parseBlock at h
  dsimp only at h
  split at h
  · cases h
  · rename_i hne
    injection h with h
    subst h
    rw [foldl_parseLine_question]
    exact ⟨rfl, by simpa [List.isEmpty_iff] using hne⟩

lemma parseBlock_bucket {block : Str} {q : Question} {bk : Str}
    (h : parseBlock block = some q) (hbk : q.bucket = some bk) :
    q.source = some (bucketLabel bk) := by
  unfold parseBlock at h
  dsimp only at h
  split at h
  · cases h
  · injection h with h
    subst h
    exact foldl_parseLine_bucket _ _ (fun bk2 hbk2 => by cases hbk2) bk hbk

lemma containsSeq_of_isPre {x : Str}
    (h : "QUESTION:".data.isPrefixOf x = true) :
    containsSeq "QUESTION:".data x = true := by
  cases x with
  | nil => cases h
  | cons a as => simp [containsSeq, h]

set_option maxHeartbeats 2000000 in
lemma splitOnMarker_cons (a : Char) (as : Str)
    (h : "QUESTION:".data.isPrefixOf (a :: as) = false) :
    splitOnMarker (a :: as) =
      match splitOnMarker as with
      | [] => [[a]]
      | h1 :: t => (a :: h1) :: t := by
  conv_lhs => rw [splitOnMarker.eq_def]
  split
  · rename_i rest heq
    have h2 : a :: as = "QUESTION:".data ++ rest := by
      rw [heq]
      rfl
    rw [h2, isPre_append] at h
    cases h
  · rename_i a2 as2 hcond heq
    injection heq with h1 h2
    subst h1 h2
    rfl
  · rename_i heq
    cases heq

lemma marker_not_isPre_cross (a : Char) (x rest : Str)
    (h : containsSeq "QUESTION:".data (a :: x) = false) :
    "QUESTION:".data.isPrefixOf ((a :: x) ++ ("QUESTION:".data ++ rest)) = false := by
  by_contra hb
  have htrue : "QUESTION:".data.isPrefixOf ((a :: x) ++ ("QUESTION:".data ++ rest)) = true := by
    cases hval : "QUESTION:".data.isPrefixOf ((a :: x) ++ ("QUESTION:".data ++ rest)) with
    | false => exact absurd hval hb
    | true => rfl
  have hpre := List.isPrefixOf_iff_prefix.mp htrue
  by_cases hx : 9 ≤ (a :: x).length
  · have htake := List.prefix_iff_eq_take.mp hpre
    rw [show ("QUESTION:".data).length = 9 from rfl] at htake
    rw [List.take_append_of_le_length hx] at htake
    have hpx : "QUESTION:".data <+: (a :: x) := by
      rw [htake]
      exact List.take_prefix 9 (a :: x)
    have := containsSeq_of_isPre (List.isPrefixOf_iff_prefix.mpr hpx)
    rw [h] at this
    cases this
  · have hlt : (a :: x).length < 9 := by omega
    have hge1 : 1 ≤ (a :: x).length := by simp
    have htake := List.prefix_iff_eq_take.mp hpre
    rw [show ("QUESTION:".data).length = 9 from rfl,
      List.take_append_eq_append_take,
      List.take_of_length_le (by omega : (a :: x).length ≤ 9),
      List.take_append_of_le_length (by
        rw [show ("QUESTION:".data).length = 9 from rfl]
        omega)] at htake
    have hdt : "QUESTION:".data.drop (a :: x).length =
        "QUESTION:".data.take (9 - (a :: x).length) := by
      conv_lhs => rw [htake]
      exact List.drop_left _ _
    obtain ⟨j, hj⟩ : ∃ j, 9 - (a :: x).length = j + 1 :=
      ⟨9 - (a :: x).length - 1, by omega⟩
    have hhead : ("QUESTION:".data.drop (a :: x).length).head? = some 'Q' := by
      rw [hdt, hj, show "QUESTION:".data = 'Q' :: "UESTION:".data from rfl,
        List.take_succ_cons]
      rfl
    set i := (a :: x).length with hidef
    have h1 : 1 ≤ i := hge1
    have h9 : i < 9 := hlt
    interval_cases i <;> exact absurd hhead (by decide)

lemma split_marker_free :
    ∀ (pre rest : Str), containsSeq "QUESTION:".data pre = false →
      splitOnMarker (pre ++ ("QUESTION:".data ++ rest)) = pre :: splitOnMarker rest := by
  intro pre
  induction pre with
  | nil =>
    intro rest _
    rfl
  | cons a pre2 ih =>
    intro rest h
    have hsplit : "QUESTION:".data.isPrefixOf (a :: pre2) = false ∧
        containsSeq "QUESTION:".data pre2 = false := by
      unfold containsSeq at h
      simpa using h
    have hcross := marker_not_isPre_cross a pre2 rest h
    rw [show (a :: pre2) ++ ("QUESTION:".data ++ rest) =
      a :: (pre2 ++ ("QUESTION:".data ++ rest)) from rfl]
    rw [splitOnMarker_cons a _ (by exact hcross)]
    rw [ih rest hsplit.2]

lemma parse_marker_free (pre rest : Str)
    (h : containsSeq "QUESTION:".data pre = false) :
    parse_questions (pre ++ ("QUESTION:".data ++ rest)) =
      parse_questions ("QUESTION:".data ++ rest) := by
  unfold parse_questions
  rw [split_marker_free pre rest h]
  rfl

/-- C4 (amended): `parse_questions` splits on the literal marker and parses
only the blocks after the first marker, one record per kept block in text
order; a block is dropped iff it is entirely whitespace — a block whose FIRST
line is blank but which has later non-whitespace content is NOT dropped
(contrary to the claim, see `c4_parser_counterexample`): `block.strip()`
promotes the first non-blank line to the question text; a parsed
`SOURCE_BUCKET` code is translated through the fixed table (code "1" ↦
"Filings/Press") with unrecognized codes passing through verbatim; and two
well-formed blocks yield two records in original order. -/
theorem c4_parser_amended :
    (∀ response : Str, parse_questions response =
      ((splitOnMarker response).drop 1).filterMap parseBlock) ∧
    (∀ pre rest : Str, containsSeq "QUESTION:".data pre = false →
      parse_questions (pre ++ ("QUESTION:".data ++ rest)) =
        parse_questions ("QUESTION:".data ++ rest)) ∧
    (∀ block : Str, parseBlock block = none ↔ pyStrip block = []) ∧
    (∀ (block : Str) (q : Question), parseBlock block = some q →
      q.question = pyStrip ((splitOnChar '\n' (pyStrip block)).headD []) ∧
      q.question ≠ []) ∧
    (∀ (block : Str) (q : Question) (bk : Str), parseBlock block = some q →
      q.bucket = some bk → q.source = some (bucketLabel bk)) ∧
    bucketLabel "1".data = "Filings/Press".data ∧
    (∀ code : Str, code ≠ "1".data → code ≠ "2".data → code ≠ "3".data →
      bucketLabel code = code) ∧
    ((parse_questions
        "QUESTION: A? (Src)\nSOURCE_BUCKET: 1\nQUESTION: B? (Src)\nTHREAT_LEVEL: HIGH".data).map
      fun q => (q.question, q.source, q.threat)) =
      [("A? (Src)".data, some "Filings/Press".data, none),
       ("B? (Src)".data, none, some "HIGH".data)] := by
  refine ⟨fun response => rfl, parse_marker_free, parseBlock_eq_none_iff,
    fun block q h => parseBlock_question h,
    fun block q bk h hbk => parseBlock_bucket h hbk, by decide, ?_, by decide⟩
  intro code h1 h2 h3
  unfold bucketLabel bucket_names
  rw [List.lookup_cons, List.lookup_cons, List.lookup_cons]
  have hb1 : (code == "1".data) = false := by simpa using h1
  have hb2 : (code == "2".data) = false := by simpa using h2
  have hb3 : (code == "3".data) = false := by simpa using h3
  simp only [hb1, hb2, hb3]
  rfl

/-- C4 counterexample: a block whose first line is blank but which carries a
later non-blank line is NOT dropped — the metadata line is promoted to the
question text — refuting the claim that such a block is dropped in its
entirety. -/
theorem c4_parser_counterexample :
    parse_questions "QUESTION:\nTHREAT_LEVEL: HIGH".data ≠ [] ∧
    ((parse_questions "QUESTION:\nTHREAT_LEVEL: HIGH".data).map
      fun q => (q.question, q.threat)) = [("THREAT_LEVEL: HIGH".data, none)] := by
  constructor
  · decide
  · decide

/-- C4 witness: leading content without a marker is discarded. -/
theorem c4_parser_witness :
    parse_questions ("junk ".data ++ ("QUESTION:".data ++ " Q1\n".data)) =
      parse_questions ("QUESTION:".data ++ " Q1\n".data) :=
  c4_parser_amended.2.1 "junk ".data " Q1\n".data (by decide)

lemma check_anomalies_ok (b : DataBundle) (hb : bundleSafe b) :
    ∃ rest, DataTools.check_anomalies b = .ok ("DETECTED ANOMALIES:\n".data ++ rest) := by
  obtain ⟨res, hres⟩ := run_analysis_ok b.snowflake_metrics b.peer_financials hb
  obtain ⟨e, r⟩ := res
  unfold DataTools.check_anomalies
  rw [hres]
  exact ⟨_, rfl⟩

lemma noGQpre_of_head {s : Str} {c : Char} (hs : s.head? = some c) (hc : c ≠ 'G') :
    "GENERATE_QUESTIONS:".data.isPrefixOf s = false :=
  isPre_false_of_head_ne rfl hs (fun he => hc (he.symm))

lemma execute_tool_gq (b : DataBundle) (i : ToolInput) :
    DataTools.execute_tool b "generate_questions".data i =
      .ok ("GENERATE_QUESTIONS:".data ++ i.getStr "findings".data []) := by
  unfold DataTools.execute_tool
  rw [if_neg (by decide), if_neg (by decide), if_neg (by decide), if_neg (by decide),
    if_neg (by decide), if_neg (by decide), if_neg (by decide), if_neg (by decide),
    if_pos rfl]

lemma execute_tool_no_gq (b : DataBundle) (hb : bundleSafe b) (n : Str) (i : ToolInput)
    (hn : n ≠ "generate_questions".data) :
    ∃ s, DataTools.execute_tool b n i = .ok s ∧
      "GENERATE_QUESTIONS:".data.isPrefixOf s = false := by
  unfold DataTools.execute_tool
  split
  · exact ⟨_, rfl, noGQpre_of_head rfl (by decide)⟩
  split
  · unfold DataTools.search_transcripts
    split
    · exact ⟨_, rfl, noGQpre_of_head rfl (by decide)⟩
    · exact ⟨_, rfl, noGQpre_of_head rfl (by decide)⟩
  split
  · unfold DataTools.get_analyst_ratings
    split
    · exact ⟨_, rfl, noGQpre_of_head rfl (by decide)⟩
    · exact ⟨_, rfl, noGQpre_of_head rfl (by decide)⟩
  split
  · unfold DataTools.get_competitor_news
    split
    · exact ⟨_, rfl, noGQpre_of_head rfl (by decide)⟩
    · exact ⟨_, rfl, noGQpre_of_head rfl (by decide)⟩
  split
  · obtain ⟨rest, hr⟩ := check_anomalies_ok b hb
    exact ⟨_, hr, noGQpre_of_head rfl (by decide)⟩
  split
  · unfold DataTools.get_sec_filings
    split
    · exact ⟨_, rfl, noGQpre_of_head rfl (by decide)⟩
    · exact ⟨_, rfl, noGQpre_of_head rfl (by decide)⟩
  split
  · unfold DataTools.get_press_releases
    split
    · exact ⟨_, rfl, noGQpre_of_head rfl (by decide)⟩
    · exact ⟨_, rfl, noGQpre_of_head rfl (by decide)⟩
  split
  · unfold DataTools.compare_to_competitor
    split
    · exact ⟨_, rfl, noGQpre_of_head rfl (by decide)⟩
    · exact ⟨_, rfl, noGQpre_of_head rfl (by decide)⟩
  exact ⟨_, rfl, noGQpre_of_head rfl (by decide)⟩

lemma execute_tool_ok (b : DataBundle) (hb : bundleSafe b) (n : Str) (i : ToolInput) :
    ∃ s, DataTools.execute_tool b n i = .ok s := by
  by_cases hn : n = "generate_questions".data
  · subst hn
    exact ⟨_, execute_tool_gq b i⟩
  · obtain ⟨s, hs, _⟩ := execute_tool_no_gq b hb n i hn
    exact ⟨s, hs⟩

lemma questionRunTools_clean (b : DataBundle) (complete : Str → Str → Str) (hb : bundleSafe b) :
    ∀ (tcs : List (Str × ToolInput)) (collected : List Str),
      (∀ p ∈ tcs, p.1 ≠ "generate_questions".data) →
      ∃ tr collected2, questionRunTools b complete tcs collected = .ok (tr, some collected2) ∧
        countModelTurns tr = 0 ∧ countSynthCalls tr = 0 ∧ questionsTexts tr = [] ∧
        errorTexts tr = [] ∧ completeTexts tr = [] ∧ execNames tr = tcs.map (·.1) := by
  intro tcs
  induction tcs with
  | nil =>
    intro collected _
    exact ⟨[], collected, rfl, rfl, rfl, rfl, rfl, rfl, rfl⟩
  | cons hd rest ih =>
    intro collected hno
    obtain ⟨n, i⟩ := hd
    have hn : n ≠ "generate_questions".data := hno (n, i) (by simp)
    obtain ⟨s, hs, hpre⟩ := execute_tool_no_gq b hb n i hn
    obtain ⟨tr, c2, hrun, h1, h2, h3, h4, h5, h6⟩ :=
      ih (collected ++ [collectedTag n s]) (fun p hp => hno p (by simp [hp]))
    refine ⟨[.ev (.tool_call n i), .toolExec n, .ev (.tool_result (preview s))] ++ tr,
      c2, ?_, ?_, ?_, ?_, ?_, ?_, ?_⟩
    · unfold questionRunTools
      rw [hs]
      dsimp only
      rw [if_neg (by simp [hpre])]
      rw [hrun]
    · simpa [countModelTurns, List.filter_append] using h1
    · simpa [countSynthCalls, List.filter_append] using h2
    · simpa [questionsTexts, List.filterMap_append] using h3
    · simpa [errorTexts, List.filterMap_append] using h4
    · simpa [completeTexts, List.filterMap_append] using h5
    · simpa [execNames, List.filterMap_append, List.filterMap_cons] using h6

lemma questionRunTools_sentinel (b : DataBundle) (complete : Str → Str → Str)
    (hb : bundleSafe b) :
    ∀ (tcs : List (Str × ToolInput)) (collected : List Str),
      "generate_questions".data ∈ tcs.map (·.1) →
      ∃ tr, questionRunTools b complete tcs collected = .ok (tr, none) ∧
        countModelTurns tr = 0 ∧ countSynthCalls tr = 1 ∧
        (∃ f a2, questionsTexts tr = [complete f a2]) ∧
        errorTexts tr = [] ∧ completeTexts tr = [] ∧
        execNames tr = (tcs.map (·.1)).takeWhile
          (fun m => m ≠ "generate_questions".data) ++ ["generate_questions".data] := by
  intro tcs
  induction tcs with
  | nil =>
    intro collected hmem
    cases hmem
  | cons hd rest ih =>
    intro collected hmem
    obtain ⟨n, i⟩ := hd
    by_cases hn : n = "generate_questions".data
    · subst hn
      refine ⟨[.ev (.tool_call "generate_questions".data i), .toolExec "generate_questions".data,
        .synthCall, .ev (.questions (complete
          (removeGQ ("GENERATE_QUESTIONS:".data ++ i.getStr "findings".data []))
          (joinWith "\n\n".data collected)))], ?_, rfl, rfl, ⟨_, _, rfl⟩, rfl, rfl, ?_⟩
      · unfold questionRunTools
        rw [execute_tool_gq]
        dsimp only
        rw [if_pos (by simp [isPre_append])]
      · simp [execNames, List.filterMap_cons, List.takeWhile]
    · have hmem2 : "generate_questions".data ∈ rest.map (·.1) := by
        simp only [List.map_cons, List.mem_cons] at hmem
        rcases hmem with hmem | hmem
        · exact absurd hmem.symm hn
        · exact hmem
      obtain ⟨s, hs, hpre⟩ := execute_tool_no_gq b hb n i hn
      obtain ⟨tr, hrun, h1, h2, h3, h4, h5, h6⟩ := ih (collected ++ [collectedTag n s]) hmem2
      refine ⟨[.ev (.tool_call n i), .toolExec n, .ev (.tool_result (preview s))] ++ tr,
        ?_, ?_, ?_, ?_, ?_, ?_, ?_⟩
      · unfold questionRunTools
        rw [hs]
        dsimp only
        rw [if_neg (by simp [hpre])]
        rw [hrun]
      · simpa [countModelTurns, List.filter_append] using h1
      · simpa [countSynthCalls, List.filter_append] using h2
      · obtain ⟨f, a2, h3'⟩ := h3
        exact ⟨f, a2, by simpa [questionsTexts, List.filterMap_append] using h3'⟩
      · simpa [errorTexts, List.filterMap_append] using h4
      · simpa [completeTexts, List.filterMap_append] using h5
      · simp only [execNames, List.filterMap_append, List.filterMap_cons, List.filterMap_nil] at h6 ⊢
        dsimp only at h6 ⊢
        rw [h6]
        simp [List.takeWhile, hn]

lemma batchNames_ne_nil_iff (r : Response) :
    batchNames r ≠ [] ↔ (toolCallsOf r).isEmpty = false := by
  unfold batchNames
  cases toolCallsOf r with
  | nil => simp
  | cons a t => simp

lemma mem_batch_ne_gq {r : Response} (h : "generate_questions".data ∉ batchNames r) :
    ∀ p ∈ toolCallsOf r, p.1 ≠ "generate_questions".data := by
  intro p hp heq
  exact h (by
    unfold batchNames
    rw [← heq]
    exact List.mem_map_of_mem _ hp)

lemma countModelTurns_cons_turn (t : List TraceItem) :
    countModelTurns (.modelTurn :: t) = countModelTurns t + 1 := by
  simp [countModelTurns, List.filter]

lemma countModelTurns_append (a b : List TraceItem) :
    countModelTurns (a ++ b) = countModelTurns a + countModelTurns b := by
  simp [countModelTurns, List.filter_append]

lemma countSynthCalls_cons_turn (t : List TraceItem) :
    countSynthCalls (.modelTurn :: t) = countSynthCalls t := by
  simp [countSynthCalls, List.filter]

lemma countSynthCalls_append (a b : List TraceItem) :
    countSynthCalls (a ++ b) = countSynthCalls a + countSynthCalls b := by
  simp [countSynthCalls, List.filter_append]

lemma questionLoop_sentinel (b : DataBundle) (script : Nat → Response)
    (complete : Str → Str → Str) (hb : bundleSafe b) :
    ∀ (k fuel turn : Nat) (collected : List Str), k < fuel →
      (∀ j, j < k → batchNames (script (turn + j)) ≠ [] ∧
        "generate_questions".data ∉ batchNames (script (turn + j))) →
      "generate_questions".data ∈ batchNames (script (turn + k)) →
      ∃ t, questionLoop b script complete fuel turn collected = .ok t ∧
        countModelTurns t = k + 1 ∧ countSynthCalls t = 1 ∧
        (∃ f a, questionsTexts t = [complete f a]) ∧
        errorTexts t = [] ∧ completeTexts t = [] ∧
        execNames t = batchesNames script turn k ++
          ((batchNames (script (turn + k))).takeWhile
            (fun m => m ≠ "generate_questions".data) ++ ["generate_questions".data]) := by
  intro k
  induction k with
  | zero =>
    intro fuel turn collected hkf hprev hsent
    cases fuel with
    | zero => omega
    | succ f =>
      rw [Nat.add_zero] at hsent
      have hne : (toolCallsOf (script turn)).isEmpty = false := by
        rw [← batchNames_ne_nil_iff]
        intro hnil
        rw [hnil] at hsent
        cases hsent
      have hsent2 : "generate_questions".data ∈ (toolCallsOf (script turn)).map (·.1) := hsent
      obtain ⟨tr, hrun, h1, h2, h3, h4, h5, h6⟩ :=
        questionRunTools_sentinel b complete hb (toolCallsOf (script turn)) collected hsent2
      refine ⟨.modelTurn :: tr, ?_, ?_, ?_, ?_, ?_, ?_, ?_⟩
      · unfold questionLoop
        rw [if_neg (by simp [hne])]
        rw [hrun]
      · simpa [countModelTurns] using h1
      · simpa [countSynthCalls] using h2
      · obtain ⟨f2, a2, h3'⟩ := h3
        exact ⟨f2, a2, by simpa [questionsTexts] using h3'⟩
      · simpa [errorTexts] using h4
      · simpa [completeTexts] using h5
      · rw [Nat.add_zero]
        simpa [execNames, batchesNames, batchNames] using h6
  | succ k ih =>
    intro fuel turn collected hkf hprev hsent
    cases fuel with
    | zero => omega
    | succ f =>
      have h0 := hprev 0 (Nat.succ_pos k)
      rw [Nat.add_zero] at h0
      have hne : (toolCallsOf (script turn)).isEmpty = false := by
        rw [← batchNames_ne_nil_iff]
        exact h0.1
      obtain ⟨tr, c2, hrun, h1, h2, h3, h4, h5, h6⟩ :=
        questionRunTools_clean b complete hb (toolCallsOf (script turn)) collected
          (mem_batch_ne_gq h0.2)
      have hprev2 : ∀ j, j < k → batchNames (script (turn + 1 + j)) ≠ [] ∧
          "generate_questions".data ∉ batchNames (script (turn + 1 + j)) := by
        intro j hj
        rw [show turn + 1 + j = turn + (j + 1) from by omega]
        exact hprev (j + 1) (by omega)
      have hsent2 : "generate_questions".data ∈ batchNames (script (turn + 1 + k)) := by
        rw [show turn + 1 + k = turn + (k + 1) from by omega]
        exact hsent
      obtain ⟨rest, hrest, g1, g2, g3, g4, g5, g6⟩ :=
        ih f (turn + 1) c2 (by omega) hprev2 hsent2
      refine ⟨.modelTurn :: (tr ++ rest), ?_, ?_, ?_, ?_, ?_, ?_, ?_⟩
      · unfold questionLoop
        rw [if_neg (by simp [hne])]
        rw [hrun]
        dsimp only
        rw [hrest]
      · rw [countModelTurns_cons_turn, countModelTurns_append, h1, g1]
        omega
      · rw [countSynthCalls_cons_turn, countSynthCalls_append, h2, g2]
      · obtain ⟨f2, a2, g3'⟩ := g3
        refine ⟨f2, a2, ?_⟩
        simp only [questionsTexts, List.filterMap_cons, List.filterMap_append] at h3 g3' ⊢
        rw [h3, g3']
        rfl
      · simp only [errorTexts, List.filterMap_cons, List.filterMap_append] at h4 g4 ⊢
        rw [h4, g4]
        rfl
      · simp only [completeTexts, List.filterMap_cons, List.filterMap_append] at h5 g5 ⊢
        rw [h5, g5]
        rfl
      · simp only [execNames, List.filterMap_cons, List.filterMap_append] at h6 g6 ⊢
        rw [h6, g6]
        show batchNames (script turn) ++ (batchesNames script (turn + 1) k ++ _) = _
        rw [show batchesNames script turn (k + 1) =
          batchNames (script turn) ++ batchesNames script (turn + 1) k from rfl]
        rw [show turn + 1 + k = turn + (k + 1) from by omega]
        simp [List.append_assoc]

lemma questionLoop_exhaust (b : DataBundle) (script : Nat → Response)
    (complete : Str → Str → Str) (hb : bundleSafe b) :
    ∀ (fuel turn : Nat) (collected : List Str),
      (∀ j, j < fuel → batchNames (script (turn + j)) ≠ [] ∧
        "generate_questions".data ∉ batchNames (script (turn + j))) →
      ∃ t, questionLoop b script complete fuel turn collected = .ok t ∧
        countModelTurns t = fuel ∧ countSynthCalls t = 0 ∧
        questionsTexts t = [] ∧ completeTexts t = [] ∧
        errorTexts t = ["Max turns reached".data] := by
  intro fuel
  induction fuel with
  | zero =>
    intro turn collected _
    exact ⟨[.ev (.error "Max turns reached".data)], rfl, rfl, rfl, rfl, rfl, rfl⟩
  | succ f ih =>
    intro turn collected hprev
    have h0 := hprev 0 (Nat.succ_pos f)
    rw [Nat.add_zero] at h0
    have hne : (toolCallsOf (script turn)).isEmpty = false := by
      rw [← batchNames_ne_nil_iff]
      exact h0.1
    obtain ⟨tr, c2, hrun, h1, h2, h3, h4, h5, h6⟩ :=
      questionRunTools_clean b complete hb (toolCallsOf (script turn)) collected
        (mem_batch_ne_gq h0.2)
    have hprev2 : ∀ j, j < f → batchNames (script (turn + 1 + j)) ≠ [] ∧
        "generate_questions".data ∉ batchNames (script (turn + 1 + j)) := by
      intro j hj
      rw [show turn + 1 + j = turn + (j + 1) from by omega]
      exact hprev (j + 1) (by omega)
    obtain ⟨rest, hrest, g1, g2, g3, g4, g5⟩ := ih (turn + 1) c2 hprev2
    refine ⟨.modelTurn :: (tr ++ rest), ?_, ?_, ?_, ?_, ?_, ?_⟩
    · unfold questionLoop
      rw [if_neg (by simp [hne])]
      rw [hrun]
      dsimp only
      rw [hrest]
    · rw [countModelTurns_cons_turn, countModelTurns_append, h1, g1]
      omega
    · rw [countSynthCalls_cons_turn, countSynthCalls_append, h2, g2]
    · simp only [questionsTexts, List.filterMap_cons, List.filterMap_append] at h3 g3 ⊢
      rw [h3, g3]
      rfl
    · simp only [completeTexts, List.filterMap_cons, List.filterMap_append] at h5 g4 ⊢
      rw [h5, g4]
      rfl
    · simp only [errorTexts, List.filterMap_cons, List.filterMap_append] at h4 g5 ⊢
      rw [h4, g5]
      rfl

lemma defenseRunTools_clean (b : DataBundle) (completeD : Str → Str → Str) (hb : bundleSafe b) :
    ∀ (tcs : List (Str × ToolInput)) (collected : List Str),
      (∀ p ∈ tcs, p.1 ≠ "generate_defense".data) →
      ∃ tr collected2, defenseRunTools b completeD tcs collected = .ok (tr, some collected2) ∧
        countModelTurns tr = 0 ∧ countSynthCalls tr = 0 ∧ defenseTexts tr = [] ∧
        errorTexts tr = [] ∧ completeTexts tr = [] ∧ execNames tr = tcs.map (·.1) := by
  intro tcs
  induction tcs with
  | nil =>
    intro collected _
    exact ⟨[], collected, rfl, rfl, rfl, rfl, rfl, rfl, rfl⟩
  | cons hd rest ih =>
    intro collected hno
    obtain ⟨n, i⟩ := hd
    have hn : n ≠ "generate_defense".data := hno (n, i) (by simp)
    obtain ⟨s, hs⟩ := execute_tool_ok b hb n i
    obtain ⟨tr, c2, hrun, h1, h2, h3, h4, h5, h6⟩ :=
      ih (collected ++ [collectedTag n s]) (fun p hp => hno p (by simp [hp]))
    refine ⟨[.ev (.tool_call n i), .toolExec n, .ev (.tool_result (preview s))] ++ tr,
      c2, ?_, ?_, ?_, ?_, ?_, ?_, ?_⟩
    · unfold defenseRunTools
      rw [if_neg hn, hs]
      dsimp only
      rw [hrun]
    · simpa [countModelTurns, List.filter_append] using h1
    · simpa [countSynthCalls, List.filter_append] using h2
    · simpa [defenseTexts, List.filterMap_append] using h3
    · simpa [errorTexts, List.filterMap_append] using h4
    · simpa [completeTexts, List.filterMap_append] using h5
    · simpa [execNames, List.filterMap_append, List.filterMap_cons] using h6

lemma defenseRunTools_sentinel (b : DataBundle) (completeD : Str → Str → Str)
    (hb : bundleSafe b) :
    ∀ (tcs : List (Str × ToolInput)) (collected : List Str),
      "generate_defense".data ∈ tcs.map (·.1) →
      ∃ tr, defenseRunTools b completeD tcs collected = .ok (tr, none) ∧
        countModelTurns tr = 0 ∧ countSynthCalls tr = 1 ∧
        (∃ p a2, defenseTexts tr = [completeD p a2]) ∧
        errorTexts tr = [] ∧ completeTexts tr = [] ∧
        execNames tr = (tcs.map (·.1)).takeWhile
          (fun m => m ≠ "generate_defense".data) := by
  intro tcs
  induction tcs with
  | nil =>
    intro collected hmem
    cases hmem
  | cons hd rest ih =>
    intro collected hmem
    obtain ⟨n, i⟩ := hd
    by_cases hn : n = "generate_defense".data
    · subst hn
      refine ⟨[.ev (.tool_call "generate_defense".data i), .synthCall,
        .ev (.defense (completeD (i.getStr "talking_points".data [])
          (joinWith "\n\n".data collected)))], ?_, rfl, rfl, ⟨_, _, rfl⟩, rfl, rfl, ?_⟩
      · unfold defenseRunTools
        rw [if_pos rfl]
      · simp [execNames, List.filterMap_cons, List.takeWhile]
    · have hmem2 : "generate_defense".data ∈ rest.map (·.1) := by
        simp only [List.map_cons, List.mem_cons] at hmem
        rcases hmem with hmem | hmem
        · exact absurd hmem.symm hn
        · exact hmem
      obtain ⟨s, hs⟩ := execute_tool_ok b hb n i
      obtain ⟨tr, hrun, h1, h2, h3, h4, h5, h6⟩ := ih (collected ++ [collectedTag n s]) hmem2
      refine ⟨[.ev (.tool_call n i), .toolExec n, .ev (.tool_result (preview s))] ++ tr,
        ?_, ?_, ?_, ?_, ?_, ?_, ?_⟩
      · unfold defenseRunTools
        rw [if_neg hn, hs]
        dsimp only
        rw [hrun]
      · simpa [countModelTurns, List.filter_append] using h1
      · simpa [countSynthCalls, List.filter_append] using h2
      · obtain ⟨p, a2, h3'⟩ := h3
        exact ⟨p, a2, by simpa [defenseTexts, List.filterMap_append] using h3'⟩
      · simpa [errorTexts, List.filterMap_append] using h4
      · simpa [completeTexts, List.filterMap_append] using h5
      · simp only [execNames, List.filterMap_append, List.filterMap_cons,
          List.filterMap_nil] at h6 ⊢
        dsimp only at h6 ⊢
        rw [h6]
        simp [List.takeWhile, hn]

lemma mem_batch_ne_gd {r : Response} (h : "generate_defense".data ∉ batchNames r) :
    ∀ p ∈ toolCallsOf r, p.1 ≠ "generate_defense".data := by
  intro p hp heq
  exact h (by
    unfold batchNames
    rw [← heq]
    exact List.mem_map_of_mem _ hp)

lemma defenseLoop_sentinel (b : DataBundle) (script : Nat → Response)
    (completeD : Str → Str → Str) (hb : bundleSafe b) :
    ∀ (k fuel turn : Nat) (collected : List Str), k < fuel →
      (∀ j, j < k → batchNames (script (turn + j)) ≠ [] ∧
        "generate_defense".data ∉ batchNames (script (turn + j))) →
      "generate_defense".data ∈ batchNames (script (turn + k)) →
      ∃ t, defenseLoop b script completeD fuel turn collected = .ok t ∧
        countModelTurns t = k + 1 ∧ countSynthCalls t = 1 ∧
        (∃ p a, defenseTexts t = [completeD p a]) ∧
        errorTexts t = [] ∧ completeTexts t = [] ∧
        execNames t = batchesNames script turn k ++
          (batchNames (script (turn + k))).takeWhile
            (fun m => m ≠ "generate_defense".data) := by
  intro k
  induction k with
  | zero =>
    intro fuel turn collected hkf hprev hsent
    cases fuel with
    | zero => omega
    | succ f =>
      rw [Nat.add_zero] at hsent
      have hne : (toolCallsOf (script turn)).isEmpty = false := by
        rw [← batchNames_ne_nil_iff]
        intro hnil
        rw [hnil] at hsent
        cases hsent
      obtain ⟨tr, hrun, h1, h2, h3, h4, h5, h6⟩ :=
        defenseRunTools_sentinel b completeD hb (toolCallsOf (script turn)) collected hsent
      refine ⟨.modelTurn :: tr, ?_, ?_, ?_, ?_, ?_, ?_, ?_⟩
      · unfold defenseLoop
        rw [if_neg (by simp [hne])]
        rw [hrun]
      · simpa [countModelTurns] using h1
      · simpa [countSynthCalls] using h2
      · obtain ⟨p, a2, h3'⟩ := h3
        exact ⟨p, a2, by simpa [defenseTexts] using h3'⟩
      · simpa [errorTexts] using h4
      · simpa [completeTexts] using h5
      · rw [Nat.add_zero]
        simpa [execNames, batchesNames, batchNames] using h6
  | succ k ih =>
    intro fuel turn collected hkf hprev hsent
    cases fuel with
    | zero => omega
    | succ f =>
      have h0 := hprev 0 (Nat.succ_pos k)
      rw [Nat.add_zero] at h0
      have hne : (toolCallsOf (script turn)).isEmpty = false := by
        rw [← batchNames_ne_nil_iff]
        exact h0.1
      obtain ⟨tr, c2, hrun, h1, h2, h3, h4, h5, h6⟩ :=
        defenseRunTools_clean b completeD hb (toolCallsOf (script turn)) collected
          (mem_batch_ne_gd h0.2)
      have hprev2 : ∀ j, j < k → batchNames (script (turn + 1 + j)) ≠ [] ∧
          "generate_defense".data ∉ batchNames (script (turn + 1 + j)) := by
        intro j hj
        rw [show turn + 1 + j = turn + (j + 1) from by omega]
        exact hprev (j + 1) (by omega)
      have hsent2 : "generate_defense".data ∈ batchNames (script (turn + 1 + k)) := by
        rw [show turn + 1 + k = turn + (k + 1) from by omega]
        exact hsent
      obtain ⟨rest, hrest, g1, g2, g3, g4, g5, g6⟩ :=
        ih f (turn + 1) c2 (by omega) hprev2 hsent2
      refine ⟨.modelTurn :: (tr ++ rest), ?_, ?_, ?_, ?_, ?_, ?_, ?_⟩
      · unfold defenseLoop
        rw [if_neg (by simp [hne])]
        rw [hrun]
        dsimp only
        rw [hrest]
      · rw [countModelTurns_cons_turn, countModelTurns_append, h1, g1]
        omega
      · rw [countSynthCalls_cons_turn, countSynthCalls_append, h2, g2]
      · obtain ⟨p, a2, g3'⟩ := g3
        refine ⟨p, a2, ?_⟩
        simp only [defenseTexts, List.filterMap_cons, List.filterMap_append] at h3 g3' ⊢
        rw [h3, g3']
        rfl
      · simp only [errorTexts, List.filterMap_cons, List.filterMap_append] at h4 g4 ⊢
        rw [h4, g4]
        rfl
      · simp only [completeTexts, List.filterMap_cons, List.filterMap_append] at h5 g5 ⊢
        rw [h5, g5]
        rfl
      · simp only [execNames, List.filterMap_cons, List.filterMap_append] at h6 g6 ⊢
        rw [h6, g6]
        show batchNames (script turn) ++ (batchesNames script (turn + 1) k ++ _) = _
        rw [show batchesNames script turn (k + 1) =
          batchNames (script turn) ++ batchesNames script (turn + 1) k from rfl]
        rw [show turn + 1 + k = turn + (k + 1) from by omega]
        simp [List.append_assoc]

lemma defenseLoop_exhaust (b : DataBundle) (script : Nat → Response)
    (completeD : Str → Str → Str) (hb : bundleSafe b) :
    ∀ (fuel turn : Nat) (collected : List Str),
      (∀ j, j < fuel → batchNames (script (turn + j)) ≠ [] ∧
        "generate_defense".data ∉ batchNames (script (turn + j))) →
      ∃ t, defenseLoop b script completeD fuel turn collected = .ok t ∧
        countModelTurns t = fuel ∧ countSynthCalls t = 0 ∧
        defenseTexts t = [] ∧ completeTexts t = [] ∧
        errorTexts t = ["Max turns reached".data] := by
  intro fuel
  induction fuel with
  | zero =>
    intro turn collected _
    exact ⟨[.ev (.error "Max turns reached".data)], rfl, rfl, rfl, rfl, rfl, rfl⟩
  | succ f ih =>
    intro turn collected hprev
    have h0 := hprev 0 (Nat.succ_pos f)
    rw [Nat.add_zero] at h0
    have hne : (toolCallsOf (script turn)).isEmpty = false := by
      rw [← batchNames_ne_nil_iff]
      exact h0.1
    obtain ⟨tr, c2, hrun, h1, h2, h3, h4, h5, h6⟩ :=
      defenseRunTools_clean b completeD hb (toolCallsOf (script turn)) collected
        (mem_batch_ne_gd h0.2)
    have hprev2 : ∀ j, j < f → batchNames (script (turn + 1 + j)) ≠ [] ∧
        "generate_defense".data ∉ batchNames (script (turn + 1 + j)) := by
      intro j hj
      rw [show turn + 1 + j = turn + (j + 1) from by omega]
      exact hprev (j + 1) (by omega)
    obtain ⟨rest, hrest, g1, g2, g3, g4, g5⟩ := ih (turn + 1) c2 hprev2
    refine ⟨.modelTurn :: (tr ++ rest), ?_, ?_, ?_, ?_, ?_, ?_⟩
    · unfold defenseLoop
      rw [if_neg (by simp [hne])]
      rw [hrun]
      dsimp only
      rw [hrest]
    · rw [countModelTurns_cons_turn, countModelTurns_append, h1, g1]
      omega
    · rw [countSynthCalls_cons_turn, countSynthCalls_append, h2, g2]
    · simp only [defenseTexts, List.filterMap_cons, List.filterMap_append] at h3 g3 ⊢
      rw [h3, g3]
      rfl
    · simp only [completeTexts, List.filterMap_cons, List.filterMap_append] at h5 g4 ⊢
      rw [h5, g4]
      rfl
    · simp only [errorTexts, List.filterMap_cons, List.filterMap_append] at h4 g5 ⊢
      rw [h4, g5]
      rfl

/-- C5: in either loop variant, when the first k turns are ordinary research
turns and turn k's response invokes the sentinel finish tool, the run places
exactly k+1 research model calls and then exactly one synthesis call, emits
exactly one final-result event carrying the synthesis call's text, emits no
error or complete event, and executes exactly the tools of the earlier
batches plus those before the sentinel in its batch — nothing after the
sentinel is ever executed (the question variant also dispatches the sentinel
itself through `execute_tool`, which is a pure string return; the defense
variant intercepts it before dispatch). -/
theorem c5_sentinel_termination :
    (∀ (b : DataBundle) (script : Nat → Response) (complete : Str → Str → Str) (k : Nat),
      bundleSafe b → k < QuestionAgent.max_turns →
      (∀ j, j < k → batchNames (script j) ≠ [] ∧
        "generate_questions".data ∉ batchNames (script j)) →
      "generate_questions".data ∈ batchNames (script k) →
      sentinelSpecQ b script complete k) ∧
    (∀ (b : DataBundle) (script : Nat → Response) (completeD : Str → Str → Str) (k : Nat),
      bundleSafe b → k < DefenseAgent.max_turns →
      (∀ j, j < k → batchNames (script j) ≠ [] ∧
        "generate_defense".data ∉ batchNames (script j)) →
      "generate_defense".data ∈ batchNames (script k) →
      sentinelSpecD b script completeD k) := by
  constructor
  · intro b script complete k hb hk hprev hsent
    obtain ⟨t, hrun, h1, h2, h3, h4, h5, h6⟩ :=
      questionLoop_sentinel b script complete hb k QuestionAgent.max_turns 0 [] hk
        (by
          intro j hj
          rw [Nat.zero_add]
          exact hprev j hj)
        (by
          rw [Nat.zero_add]
          exact hsent)
    rw [Nat.zero_add] at h6
    exact ⟨t, hrun, h1, h2, h3, h4, h5, h6⟩
  · intro b script completeD k hb hk hprev hsent
    obtain ⟨t, hrun, h1, h2, h3, h4, h5, h6⟩ :=
      defenseLoop_sentinel b script completeD hb k DefenseAgent.max_turns 0 [] hk
        (by
          intro j hj
          rw [Nat.zero_add]
          exact hprev j hj)
        (by
          rw [Nat.zero_add]
          exact hsent)
    rw [Nat.zero_add] at h6
    exact ⟨t, hrun, h1, h2, h3, h4, h5, h6⟩

/-- C5 witness: a first-turn sentinel in each variant. -/
theorem c5_sentinel_witness :
    sentinelSpecQ c5Bundle c5Script c5Complete 0 ∧
    sentinelSpecD c5Bundle c5ScriptD c5Complete 0 :=
  ⟨c5_sentinel_termination.1 c5Bundle c5Script c5Complete 0 (Or.inl (by decide))
      (by decide) (fun j hj => absurd hj (Nat.not_lt_zero j)) (by decide),
   c5_sentinel_termination.2 c5Bundle c5ScriptD c5Complete 0 (Or.inl (by decide))
      (by decide) (fun j hj => absurd hj (Nat.not_lt_zero j)) (by decide)⟩

/-- C6: in either loop variant, when every response requests at least one
tool and never the sentinel, the run places exactly `max_turns` research
model calls (5 for the question loop, 4 for the defense loop), performs no
synthesis call, emits no final-result or complete event, and emits exactly
one terminal error event with the fixed diagnostic "Max turns reached". -/
theorem c6_turn_budget :
    (∀ (b : DataBundle) (script : Nat → Response) (complete : Str → Str → Str),
      bundleSafe b →
      (∀ j, j < QuestionAgent.max_turns → batchNames (script j) ≠ [] ∧
        "generate_questions".data ∉ batchNames (script j)) →
      exhaustSpecQ b script complete) ∧
    (∀ (b : DataBundle) (script : Nat → Response) (completeD : Str → Str → Str),
      bundleSafe b →
      (∀ j, j < DefenseAgent.max_turns → batchNames (script j) ≠ [] ∧
        "generate_defense".data ∉ batchNames (script j)) →
      exhaustSpecD b script completeD) := by
  constructor
  · intro b script complete hb hprev
    obtain ⟨t, hrun, h1, h2, h3, h4, h5⟩ :=
      questionLoop_exhaust b script complete hb QuestionAgent.max_turns 0 []
        (by
          intro j hj
          rw [Nat.zero_add]
          exact hprev j hj)
    exact ⟨t, hrun, h1, h2, h3, h4, h5⟩
  · intro b script completeD hb hprev
    obtain ⟨t, hrun, h1, h2, h3, h4, h5⟩ :=
      defenseLoop_exhaust b script completeD hb DefenseAgent.max_turns 0 []
        (by
          intro j hj
          rw [Nat.zero_add]
          exact hprev j hj)
    exact ⟨t, hrun, h1, h2, h3, h4, h5⟩

/-- C6 witness: every turn requests one data tool and never the sentinel, in
each variant. -/
theorem c6_turn_budget_witness :
    exhaustSpecQ c6Bundle c6Script c6Complete ∧
    exhaustSpecD c6Bundle c6Script c6Complete :=
  ⟨c6_turn_budget.1 c6Bundle c6Script c6Complete (Or.inl (by decide))
      (fun j hj =>
        ⟨by
          show batchNames [Block.tool_use "t1".data "get_analyst_ratings".data []] ≠ []
          decide,
         by
          show "generate_questions".data ∉
            batchNames [Block.tool_use "t1".data "get_analyst_ratings".data []]
          decide⟩),
   c6_turn_budget.2 c6Bundle c6Script c6Complete (Or.inl (by decide))
      (fun j hj =>
        ⟨by
          show batchNames [Block.tool_use "t1".data "get_analyst_ratings".data []] ≠ []
          decide,
         by
          show "generate_defense".data ∉
            batchNames [Block.tool_use "t1".data "get_analyst_ratings".data []]
          decide⟩)⟩
